import Mathlib

/-!
gvfs: job dispatch, SFTP transport and the client enumerator channel.

A shallow embedding of the C sources

* `client/gdaemonfileenumerator.c` (the pulling side of the enumerator channel),
* `daemon/gvfsbackendsftp.c` (SFTP backend: framing, vendor probe, mount),
* `daemon/gvfsjobmount.c`, `daemon/gvfsjobqueryattributes.c` (job variants),

followed by theorems about them.  Library calls (D-Bus, GLib streams, the OS) are
modelled by what they do to explicit state; code of the repository that is not among
the sources at hand is taken as a parameter or modelled from the specification, and
says so in its doc comment.
-/

namespace GVfs

/-! ## Enumerator channel: `client/gdaemonfileenumerator.c` -/

/-- Modelled from the spec: the member name of the `DONE()` bus message, i.e. the macro
`G_VFS_DBUS_ENUMERATOR_DONE` of `gvfsdaemonprotocol.h`, a header that is not among the
sources at hand. -/
def G_VFS_DBUS_ENUMERATOR_DONE : String := "DONE"

/-- Modelled from the spec: the member name of the `GOT_INFO(...)` bus message, i.e. the
macro `G_VFS_DBUS_ENUMERATOR_GOT_INFO` of `gvfsdaemonprotocol.h`, a header that is not
among the sources at hand. -/
def G_VFS_DBUS_ENUMERATOR_GOT_INFO : String := "GOT_INFO"

/-- One top-level argument of a D-Bus message body, as far as the filter inspects it:
either an array whose element type is `DBUS_TYPE_STRUCT` (with its elements, each a
struct of wire type `σ`), or an argument of any other type. -/
inductive DBusArg (σ : Type) where
  | struct_array (elems : List σ)
  | other
deriving DecidableEq, Repr

/-- A D-Bus message: its member name and the arguments of its body. -/
structure DBusMessage (σ : Type) where
  member : String
  args : List (DBusArg σ)
deriving DecidableEq, Repr

/-- The fields of `struct _GDaemonFileEnumerator`: `id`, and the two fields protected by
the `infos` lock.  The `sync_connection` is passed to the functions that use it as the
list of messages it will still dispatch. -/
structure GDaemonFileEnumerator (ι : Type) where
  id : Int
  infos : List ι
  done : Bool
deriving DecidableEq, Repr

/-- The `while` loop of `g_daemon_file_enumerator_dbus_filter` (lines 131-141).

`array_iter` is the position of the inner iterator, given as the elements still ahead of
it: its argument type is `DBUS_TYPE_STRUCT` exactly when an element is left.  `iter` is
the outer iterator, given as the message arguments from its position on.  The struct
parser `_g_dbus_get_file_info` is not among the sources at hand and is the parameter
`get_file_info`: it receives the inner iterator and returns the `GFileInfo` (or `none`
for `NULL`) together with the position at which it leaves that iterator.  The loop
itself only advances the outer iterator (`dbus_message_iter_next (&iter)`).  `infos` is
the local list, built by prepending.  The result is `none` when the fuel is used up
before the loop condition fails. -/
def dbus_filter_loop {σ ι : Type} (get_file_info : List σ → Option ι × List σ) :
    Nat → List σ → List (DBusArg σ) → List ι → Option (List ι)
  | 0, _, _, _ => none
  | fuel + 1, array_iter, iter, infos =>
    match array_iter with
    | [] => some infos
    | _ :: _ =>
      let r := get_file_info array_iter
      let infos1 := match r.1 with
        | some info => info :: infos
        | none => infos
      dbus_filter_loop get_file_info fuel r.2 iter.tail infos1

/-- Lines 123-142 of `g_daemon_file_enumerator_dbus_filter`: the local list `infos`
collected from a `GOT_INFO` message, before it is reversed.  The loop runs when the
first argument of the message is an array of structs; `iter` stands at that argument. -/
def dbus_filter_collect {σ ι : Type} (get_file_info : List σ → Option ι × List σ)
    (fuel : Nat) (message : DBusMessage σ) : Option (List ι) :=
  match message.args with
  | DBusArg.struct_array elems :: _ =>
    dbus_filter_loop get_file_info fuel elems message.args []
  | _ => some []

/-- The function `g_daemon_file_enumerator_dbus_filter`: the new state of the enumerator,
or `none` when the loop over the batch does not end within `fuel` iterations.  The C
function returns `DBUS_HANDLER_RESULT_NOT_YET_HANDLED` on every path that returns. -/
def g_daemon_file_enumerator_dbus_filter {σ ι : Type}
    (get_file_info : List σ → Option ι × List σ) (fuel : Nat)
    (enumerator : GDaemonFileEnumerator ι) (message : DBusMessage σ) :
    Option (GDaemonFileEnumerator ι) :=
  if message.member = G_VFS_DBUS_ENUMERATOR_DONE then
    some { enumerator with done := true }
  else if message.member = G_VFS_DBUS_ENUMERATOR_GOT_INFO then
    match dbus_filter_collect get_file_info fuel message with
    | none => none
    | some infos => some { enumerator with infos := enumerator.infos ++ infos.reverse }
  else
    some enumerator

/-- The function `g_daemon_file_enumerator_next_file`.  `bus` lists the messages that
`dbus_connection_read_write_dispatch` will still hand to the filter of this enumerator,
one per call; on the empty list the connection is gone and the call returns `FALSE`.
The result is the returned `GFileInfo` (`none` for `NULL`), the enumerator afterwards and
the messages not dispatched; it is `none` when a filter call does not return. -/
def g_daemon_file_enumerator_next_file {σ ι : Type}
    (get_file_info : List σ → Option ι × List σ) (fuel : Nat)
    (daemon : GDaemonFileEnumerator ι) (bus : List (DBusMessage σ)) :
    Option (Option ι × GDaemonFileEnumerator ι × List (DBusMessage σ)) :=
  match daemon.infos with
  | info :: rest => some (some info, { daemon with infos := rest }, bus)
  | [] =>
    if daemon.done then some (none, daemon, bus)
    else
      match bus with
      | [] => some (none, daemon, [])
      | m :: bus1 =>
        match g_daemon_file_enumerator_dbus_filter get_file_info fuel daemon m with
        | none => none
        | some daemon1 =>
          g_daemon_file_enumerator_next_file get_file_info fuel daemon1 bus1

/-- Modelled from the spec: the struct parser `_g_dbus_get_file_info`, declared in
`gvfsdaemonprotocol.h` and defined outside the sources at hand.  The spec has the
consumer parse the batch entry by entry, skipping entries that yield no `FileInfo`: the
parser turns the struct under the iterator into `parse e` and leaves the iterator behind
that struct. -/
def dbus_get_file_info {σ ι : Type} (parse : σ → Option ι) :
    List σ → Option ι × List σ
  | [] => (none, [])
  | e :: rest => (parse e, rest)

/-- A `GOT_INFO` message carrying one batch. -/
def got_info_message {σ : Type} (batch : List σ) : DBusMessage σ :=
  { member := G_VFS_DBUS_ENUMERATOR_GOT_INFO, args := [DBusArg.struct_array batch] }

/-- The `DONE` message. -/
def done_message {σ : Type} : DBusMessage σ :=
  { member := G_VFS_DBUS_ENUMERATOR_DONE, args := [] }

/-- What happens to an enumerator next: the bus thread hands the next incoming message to
the filter, or the consumer calls `next_file`. -/
inductive EnumeratorEvent where
  | deliver
  | pull
deriving DecidableEq, Repr

/-- Runs a schedule of events against an enumerator and the messages still on their way,
collecting what the successive `next_file` calls return. -/
def run_enumerator {σ ι : Type} (get_file_info : List σ → Option ι × List σ)
    (fuel : Nat) :
    List EnumeratorEvent → GDaemonFileEnumerator ι → List (DBusMessage σ) →
      Option (List (Option ι))
  | [], _, _ => some []
  | EnumeratorEvent.deliver :: es, daemon, [] =>
    run_enumerator get_file_info fuel es daemon []
  | EnumeratorEvent.deliver :: es, daemon, m :: bus =>
    match g_daemon_file_enumerator_dbus_filter get_file_info fuel daemon m with
    | none => none
    | some daemon1 => run_enumerator get_file_info fuel es daemon1 bus
  | EnumeratorEvent.pull :: es, daemon, bus =>
    match g_daemon_file_enumerator_next_file get_file_info fuel daemon bus with
    | none => none
    | some (r, daemon1, bus1) =>
      match run_enumerator get_file_info fuel es daemon1 bus1 with
      | none => none
      | some rs => some (r :: rs)

/-- What a consumer is expected to observe under a schedule when the entries still to be
delivered are `l`: each pull takes the first remaining entry, or end-of-stream. -/
def observe {ι : Type} : List EnumeratorEvent → List ι → List (Option ι)
  | [], _ => []
  | EnumeratorEvent.deliver :: es, l => observe es l
  | EnumeratorEvent.pull :: es, l => l.head? :: observe es l.tail

/-- The entries of the batches that parse to a `FileInfo`, in batch order. -/
def parsed_entries {σ ι : Type} (parse : σ → Option ι) (batches : List (List σ)) :
    List ι :=
  (batches.map (List.filterMap parse)).flatten

/-- The invariant of a session whose producer posts batches and then `DONE`: either
`DONE` has been handled, nothing is on its way any more and the pending list is `l`, or
`DONE` is the last message still on its way, preceded by batches that the filter loop
can walk within `fuel`, and `l` is the pending list followed by their parsed entries. -/
def SessionView {σ ι : Type} (parse : σ → Option ι) (fuel : Nat)
    (daemon : GDaemonFileEnumerator ι) (bus : List (DBusMessage σ)) (l : List ι) : Prop :=
  (daemon.done = true ∧ bus = [] ∧ daemon.infos = l) ∨
  (daemon.done = false ∧ ∃ batches : List (List σ),
      bus = batches.map got_info_message ++ [done_message] ∧
      (∀ b ∈ batches, b.length < fuel) ∧
      l = daemon.infos ++ parsed_entries parse batches)

/-! ## Errors, jobs and mount specs (shared declarations) -/

/-- Modelled from the spec: the error kinds of the unified taxonomy, the enumeration
`GIOErrorEnum` of `gio/gioerror.h`, a header that is not among the sources at hand. -/
inductive GIOErrorEnum where
  | G_IO_ERROR_FAILED
  | G_IO_ERROR_NOT_FOUND
  | G_IO_ERROR_EXISTS
  | G_IO_ERROR_IS_DIRECTORY
  | G_IO_ERROR_NOT_DIRECTORY
  | G_IO_ERROR_NO_SPACE
  | G_IO_ERROR_INVALID_ARGUMENT
  | G_IO_ERROR_PERMISSION_DENIED
  | G_IO_ERROR_NOT_SUPPORTED
  | G_IO_ERROR_TIMED_OUT
  | G_IO_ERROR_CANCELLED
  | G_IO_ERROR_IO
deriving DecidableEq, Repr

/-- A `GError` of the domain `G_IO_ERROR`: kind and message. -/
structure GError where
  code : GIOErrorEnum
  message : String
deriving DecidableEq, Repr

/-- Modelled from the spec: the outcome of a job, `pending | succeeded | failed(error)`.
The base class `GVfsJob` (gvfsjob.c) is not among the sources at hand. -/
inductive JobOutcome where
  | pending
  | succeeded
  | failed (error : GError)
deriving DecidableEq, Repr

/-- Modelled from the spec: the base record of a job, reduced to its mutable outcome.
The base class `GVfsJob` (gvfsjob.c) is not among the sources at hand. -/
structure GVfsJob where
  outcome : JobOutcome
deriving DecidableEq, Repr

/-- The field `job->failed` that `send_reply` of the mount job reads. -/
def GVfsJob.failed (job : GVfsJob) : Bool :=
  match job.outcome with
  | JobOutcome.failed _ => true
  | _ => false

/-- The field `job->error` that `send_reply` of the mount job reads. -/
def GVfsJob.error (job : GVfsJob) : Option GError :=
  match job.outcome with
  | JobOutcome.failed e => some e
  | _ => none

/-- Whether the outcome is terminal, i.e. `succeeded` or `failed`. -/
def GVfsJob.terminal (job : GVfsJob) : Bool :=
  match job.outcome with
  | JobOutcome.pending => false
  | _ => true

/-- Modelled from the spec: `g_vfs_job_failed` (gvfsjob.c, not among the sources at
hand) sets the outcome to `failed(error)`; only the first terminal transition takes
effect. -/
def g_vfs_job_failed (job : GVfsJob) (code : GIOErrorEnum) (message : String) : GVfsJob :=
  match job.outcome with
  | JobOutcome.pending => { job with outcome := JobOutcome.failed ⟨code, message⟩ }
  | _ => job

/-- Modelled from the spec: `g_vfs_job_failed_from_error` (gvfsjob.c, not among the
sources at hand) fails the job with the kind and message of a given error. -/
def g_vfs_job_failed_from_error (job : GVfsJob) (error : GError) : GVfsJob :=
  g_vfs_job_failed job error.code error.message

/-- Modelled from the spec: `g_vfs_job_succeeded` (gvfsjob.c, not among the sources at
hand) sets the outcome to `succeeded`; only the first terminal transition takes
effect. -/
def g_vfs_job_succeeded (job : GVfsJob) : GVfsJob :=
  match job.outcome with
  | JobOutcome.pending => { job with outcome := JobOutcome.succeeded }
  | _ => job

/-- Modelled from the spec: a mount spec is a set of key/string pairs (gmountspec.c is
not among the sources at hand); kept as an association list. -/
structure GMountSpec where
  items : List (String × String)
deriving DecidableEq, Repr

/-- Modelled from the spec: `g_mount_spec_new (type)`, the spec holding only `type`. -/
def g_mount_spec_new (type : String) : GMountSpec :=
  { items := [("type", type)] }

/-- Modelled from the spec: `g_mount_spec_get`, the value of a key or `NULL`. -/
def g_mount_spec_get (spec : GMountSpec) (key : String) : Option String :=
  spec.items.lookup key

/-- Modelled from the spec: `g_mount_spec_set`, binding a key to a value (a former
binding of the key is dropped). -/
def g_mount_spec_set (spec : GMountSpec) (key : String) (value : String) : GMountSpec :=
  { items := (spec.items.filter (fun kv => kv.1 != key)) ++ [(key, value)] }

/-- The credential source handed to a mount job; an external collaborator, known here by
a handle only. -/
structure GMountSource where
  handle : Nat
deriving DecidableEq, Repr

/-! ## SFTP backend, framing: `daemon/gvfsbackendsftp.c` -/

/-- A byte. -/
abbrev Byte := Fin 256

/-- The byte holding `n` modulo 256. -/
def byte_of (n : Nat) : Byte := ⟨n % 256, Nat.mod_lt _ (by decide)⟩

/-- `GUINT32_TO_BE` as it shows in memory: the four bytes of the 32-bit value `n`, most
significant first. -/
def GUINT32_TO_BE (n : Nat) : List Byte :=
  [byte_of (n % 2 ^ 32 / 2 ^ 24), byte_of (n % 2 ^ 32 / 2 ^ 16),
    byte_of (n % 2 ^ 32 / 2 ^ 8), byte_of (n % 2 ^ 32)]

/-- `GUINT32_FROM_BE` of a 32-bit word given by its four bytes in memory order. -/
def GUINT32_FROM_BE (mem : List Byte) : Nat :=
  (mem.take 4).foldl (fun acc b => acc * 256 + b.val) 0

/-- A `GDataOutputStream` over a memory output stream: the bytes of the byte array
behind it. -/
structure GDataOutputStream where
  data : List Byte
deriving DecidableEq, Repr

/-- GLib's `g_data_output_stream_put_byte`: appends one byte. -/
def g_data_output_stream_put_byte (stream : GDataOutputStream) (data : Byte) :
    GDataOutputStream :=
  { data := stream.data ++ [data] }

/-- GLib's `g_data_output_stream_put_int32`: appends the value in (the default) big-endian
byte order. -/
def g_data_output_stream_put_int32 (stream : GDataOutputStream) (data : Nat) :
    GDataOutputStream :=
  { data := stream.data ++ GUINT32_TO_BE data }

/-- An output stream on a file descriptor: the descriptor, what has been written so far,
and whether writing fails. -/
structure GOutputStream where
  fd : Int
  written : List Byte
  broken : Bool
deriving DecidableEq, Repr

/-- GLib's `g_socket_output_stream_new (fd, close_fd_at_close)`: a stream on `fd` that
has written nothing yet. -/
def g_socket_output_stream_new (fd : Int) (_close_fd_at_close : Bool) : GOutputStream :=
  { fd := fd, written := [], broken := false }

/-- GLib's `g_output_stream_write_all`: writes all the bytes, or fails. -/
def g_output_stream_write_all (stream : GOutputStream) (buffer : List Byte) :
    Bool × GOutputStream :=
  if stream.broken then (false, stream)
  else (true, { stream with written := stream.written ++ buffer })

/-- An input stream on a file descriptor: the descriptor, the bytes still to come, and
how the stream ends after them: with end-of-file (`none`) or with an error. -/
structure GInputStream where
  fd : Int
  data : List Byte
  error_at_end : Option GError
deriving DecidableEq, Repr

/-- GLib's `g_input_stream_read_all (stream, buffer, count, &bytes_read, ...)`: reads
`count` bytes unless the stream ends first; reaching end-of-file is a success with fewer
bytes read, an error is a failure.  Returns the result, the bytes read, the error and the
stream afterwards. -/
def g_input_stream_read_all (stream : GInputStream) (count : Nat) :
    Bool × List Byte × Option GError × GInputStream :=
  if count ≤ stream.data.length then
    (true, stream.data.take count, none, { stream with data := stream.data.drop count })
  else
    match stream.error_at_end with
    | none => (true, stream.data, none, { stream with data := [] })
    | some e => (false, stream.data, some e, { stream with data := [] })

/-- A `GByteArray`: the bytes stored in its buffer from offset 0 on, and its `len`
field. -/
structure GByteArray where
  data : List Byte
  len : Nat
deriving DecidableEq, Repr

/-- GLib's `g_byte_array_sized_new (reserved_size)`: an array of length 0 with room for
`reserved_size` bytes. -/
def g_byte_array_sized_new (_reserved_size : Nat) : GByteArray :=
  { data := [], len := 0 }

/-- Modelled from the spec: the opcode `INIT=1`, the macro `SSH_FXP_INIT` of `sftp.h`, a
header that is not among the sources at hand. -/
def SSH_FXP_INIT : Nat := 1

/-- Modelled from the spec: the protocol version of `INIT(version=3)`, the macro
`SSH2_FILEXFER_VERSION` of `sftp.h`, a header that is not among the sources at hand. -/
def SSH2_FILEXFER_VERSION : Nat := 3

/-- The function `new_command_stream`: a fresh stream with four bytes reserved. -/
def new_command_stream : GDataOutputStream :=
  g_data_output_stream_put_int32 { data := [] } 0

/-- The function `send_command`.  `array->len - 4` is computed in 32-bit unsigned
arithmetic, stored big-endian over the first four bytes of the buffer, and `array->len`
bytes of the buffer are written.  Returns `res` and the output stream. -/
def send_command (out_stream : GOutputStream) (command_stream : GDataOutputStream) :
    Bool × GOutputStream :=
  let array_len := command_stream.data.length
  let patched := GUINT32_TO_BE ((array_len + 2 ^ 32 - 4) % 2 ^ 32) ++ command_stream.data.drop 4
  g_output_stream_write_all out_stream (patched.take array_len)

/-- Lines 496-502 of `do_mount`: the `INIT` request is built and sent on `so`. -/
def do_mount_send_init (so : GOutputStream) : Bool × GOutputStream :=
  let ds := new_command_stream
  let ds := g_data_output_stream_put_byte ds (byte_of SSH_FXP_INIT)
  let ds := g_data_output_stream_put_int32 ds SSH2_FILEXFER_VERSION
  send_command so ds

/-- The vendor of the local ssh client. -/
inductive SFTPClientVendor where
  | SFTP_VENDOR_INVALID
  | SFTP_VENDOR_OPENSSH
  | SFTP_VENDOR_SSH
deriving DecidableEq, Repr

/-- The fields of `struct _GVfsBackendSftp` that the code uses, and the mount spec that
`g_vfs_backend_set_mount_spec` stores in the parent instance. -/
structure GVfsBackendSftp where
  client_vendor : SFTPClientVendor
  host : Option String
  user_specified : Bool
  user : Option String
  command_stream : Option GOutputStream
  reply_stream : Option GInputStream
  mount_spec : Option GMountSpec
deriving DecidableEq, Repr

/-- The function `read_reply_sync`.  `len_mem` holds the four bytes of the local `len`
before the first read, which overwrites as many of them as it reads.  The array comes
from `g_byte_array_sized_new`, the payload is read into its buffer, and its `len` field
is not written.  Returns the array (`none` for `NULL`), the error and the backend. -/
def read_reply_sync (backend : GVfsBackendSftp) (len_mem : List Byte) :
    Option GByteArray × Option GError × GVfsBackendSftp :=
  match backend.reply_stream with
  | none => (none, none, backend)
  | some reply_stream =>
    match g_input_stream_read_all reply_stream 4 with
    | (false, _, error, s1) => (none, error, { backend with reply_stream := some s1 })
    | (true, bytes_read, _, s1) =>
      let len := GUINT32_FROM_BE (bytes_read ++ len_mem.drop bytes_read.length)
      let array := g_byte_array_sized_new len
      match g_input_stream_read_all s1 len with
      | (false, _, error, s2) => (none, error, { backend with reply_stream := some s2 })
      | (true, payload, _, s2) =>
        (some { array with data := payload }, none, { backend with reply_stream := some s2 })

/-- Whether `needle` occurs in `haystack` (C strings as character lists): the test
`strstr (haystack, needle) != NULL`. -/
def strstr : List Char → List Char → Bool
  | [], needle => needle.isEmpty
  | c :: cs, needle => needle.isPrefixOf (c :: cs) || strstr cs needle

/-- The function `get_sftp_client_vendor`.  `ssh_V` is what `g_spawn_sync` of `ssh -V`
yields: `none` when the spawn fails, else the captured stderr (`none` for `NULL`). -/
def get_sftp_client_vendor (ssh_V : Option (Option String)) : SFTPClientVendor :=
  match ssh_V with
  | none => SFTPClientVendor.SFTP_VENDOR_INVALID
  | some none => SFTPClientVendor.SFTP_VENDOR_INVALID
  | some (some ssh_stderr) =>
    if strstr ssh_stderr.data "OpenSSH".data || strstr ssh_stderr.data "Sun_SSH".data then
      SFTPClientVendor.SFTP_VENDOR_OPENSSH
    else if strstr ssh_stderr.data "SSH Secure Shell".data then
      SFTPClientVendor.SFTP_VENDOR_SSH
    else
      SFTPClientVendor.SFTP_VENDOR_INVALID

/-! ## Job variants and the capability table: `daemon/gvfsjobmount.c`,
`daemon/gvfsjobqueryattributes.c` -/

/-- The request envelope a job replies to; opaque but for its serial. -/
structure DBusRequest where
  serial : Nat
deriving DecidableEq, Repr

/-- A connection to the session bus, as `dbus_bus_get (DBUS_BUS_SESSION, NULL)` yields
it. -/
structure DBusConnection where
  unique_name : String
deriving DecidableEq, Repr

/-- The replies the mount job builds: `_dbus_message_new_from_gerror (request, error)`
and the empty `dbus_message_new_method_return (request)`. -/
inductive DBusReply where
  | new_from_gerror (request : DBusRequest) (error : Option GError)
  | new_method_return (request : DBusRequest)
deriving DecidableEq, Repr

/-- The calls by which the reply path of the mount job acts on the rest of the daemon,
in the order in which it makes them. -/
inductive MountJobEffect where
  | dbus_connection_send (conn : DBusConnection) (reply : DBusReply)
  | g_vfs_job_emit_finished
  | g_vfs_job_source_closed
  | g_vfs_backend_register_mount
deriving DecidableEq, Repr

/-- The fields of `GVfsJobMount`.  The backend it refers to is passed along with the
job. -/
structure GVfsJobMount where
  parent : GVfsJob
  mount_spec : GMountSpec
  mount_source : GMountSource
  is_automount : Bool
  request : Option DBusRequest
deriving DecidableEq, Repr

/-- The fields of `GVfsJobQueryAttributes`.  The backend it refers to is passed along
with the job; `list` is the attribute list set by the handler, by name. -/
structure GVfsJobQueryAttributes where
  parent : GVfsJob
  filename : String
  namespaces : Bool
  list : Option (List String)
deriving DecidableEq, Repr

/-- A `GVfsBackendHandle`. -/
abbrev GVfsBackendHandle := Nat

/-- The `GSeekType` of a seek request; `other` stands for any value outside the three
known ones. -/
inductive GSeekType where
  | G_SEEK_CUR
  | G_SEEK_SET
  | G_SEEK_END
  | other (value : Int)
deriving DecidableEq, Repr

/-- The capability table `GVfsBackendClass`, for a backend whose instance (with all it
can reach) has type `β`: the slots that the SFTP backend fills in and the slots that the
two job variants look up.  A `NULL` slot is `none`.  The blocking handlers return the
backend and the job as they leave them, the `try_` handlers also their `gboolean`.  Jobs
whose variant is not among the sources at hand are passed as the base `GVfsJob`. -/
structure GVfsBackendClass (β : Type) where
  mount : Option (β → GVfsJobMount → GMountSpec → GMountSource → Bool → β × GVfsJobMount)
  try_mount :
    Option (β → GVfsJobMount → GMountSpec → GMountSource → Bool → Bool × β × GVfsJobMount)
  open_for_read : Option (β → GVfsJob → String → β × GVfsJob)
  read : Option (β → GVfsJob → GVfsBackendHandle → List Byte → Nat → β × GVfsJob)
  seek_on_read : Option (β → GVfsJob → GVfsBackendHandle → Int → GSeekType → β × GVfsJob)
  close_read : Option (β → GVfsJob → GVfsBackendHandle → β × GVfsJob)
  create : Option (β → GVfsJob → String → β × GVfsJob)
  append_to : Option (β → GVfsJob → String → β × GVfsJob)
  replace : Option (β → GVfsJob → String → Int → Bool → β × GVfsJob)
  write : Option (β → GVfsJob → GVfsBackendHandle → List Byte → Nat → β × GVfsJob)
  seek_on_write : Option (β → GVfsJob → GVfsBackendHandle → Int → GSeekType → β × GVfsJob)
  close_write : Option (β → GVfsJob → GVfsBackendHandle → β × GVfsJob)
  get_info : Option (β → GVfsJob → String → String → Nat → β × GVfsJob)
  get_fs_info : Option (β → GVfsJob → String → String → β × GVfsJob)
  enumerate : Option (β → GVfsJob → String → String → Nat → β × GVfsJob)
  set_display_name : Option (β → GVfsJob → String → String → β × GVfsJob)
  delete : Option (β → GVfsJob → String → β × GVfsJob)
  make_directory : Option (β → GVfsJob → String → β × GVfsJob)
  move : Option (β → GVfsJob → String → String → Nat → β × GVfsJob)
  query_settable_attributes :
    Option (β → GVfsJobQueryAttributes → String → β × GVfsJobQueryAttributes)
  try_query_settable_attributes :
    Option (β → GVfsJobQueryAttributes → String → Bool × β × GVfsJobQueryAttributes)
  query_writable_namespaces :
    Option (β → GVfsJobQueryAttributes → String → β × GVfsJobQueryAttributes)
  try_query_writable_namespaces :
    Option (β → GVfsJobQueryAttributes → String → Bool × β × GVfsJobQueryAttributes)

namespace JobMount

/-- The function `run` of gvfsjobmount.c. -/
def run {β : Type} (cls : GVfsBackendClass β) (backend : β) (op_job : GVfsJobMount) :
    β × GVfsJobMount :=
  match cls.mount with
  | none =>
    (backend,
      { op_job with
        parent := g_vfs_job_failed op_job.parent GIOErrorEnum.G_IO_ERROR_NOT_SUPPORTED
          "Operation not supported by backend" })
  | some mount =>
    mount backend op_job op_job.mount_spec op_job.mount_source op_job.is_automount

/-- The function `try` of gvfsjobmount.c. -/
def try_ {β : Type} (cls : GVfsBackendClass β) (backend : β) (op_job : GVfsJobMount) :
    Bool × β × GVfsJobMount :=
  match cls.try_mount with
  | none => (false, backend, op_job)
  | some try_mount =>
    try_mount backend op_job op_job.mount_spec op_job.mount_source op_job.is_automount

/-- The function `mount_failed`.  `session_bus` is what `dbus_bus_get` yields (`none` for
`NULL`); the `g_debug` line of the branch without request is not recorded. -/
def mount_failed (session_bus : Option DBusConnection) (op_job : GVfsJobMount)
    (error : Option GError) : List MountJobEffect :=
  (match op_job.request with
    | some request =>
      match session_bus with
      | some conn =>
        [MountJobEffect.dbus_connection_send conn (DBusReply.new_from_gerror request error)]
      | none => []
    | none => [])
  ++ [MountJobEffect.g_vfs_job_emit_finished, MountJobEffect.g_vfs_job_source_closed]

/-- The function `register_mount_callback`: `mount_reply` is the answer of the registry
(`none` for `NULL`), `error` the error it reports. -/
def register_mount_callback (session_bus : Option DBusConnection)
    (mount_reply : Option DBusRequest) (error : Option GError) (op_job : GVfsJobMount) :
    List MountJobEffect :=
  match mount_reply with
  | none => mount_failed session_bus op_job error
  | some _ =>
    (match op_job.request with
      | some request =>
        match session_bus with
        | some conn =>
          [MountJobEffect.dbus_connection_send conn (DBusReply.new_method_return request)]
        | none => []
      | none => [])
    ++ [MountJobEffect.g_vfs_job_emit_finished]

/-- The function `send_reply` of gvfsjobmount.c. -/
def send_reply (session_bus : Option DBusConnection) (op_job : GVfsJobMount) :
    List MountJobEffect :=
  if op_job.parent.failed then mount_failed session_bus op_job op_job.parent.error
  else [MountJobEffect.g_vfs_backend_register_mount]

end JobMount

namespace JobQueryAttributes

/-- The function `run` of gvfsjobqueryattributes.c. -/
def run {β : Type} (cls : GVfsBackendClass β) (backend : β)
    (op_job : GVfsJobQueryAttributes) : β × GVfsJobQueryAttributes :=
  let cb :=
    if op_job.namespaces then cls.query_writable_namespaces
    else cls.query_settable_attributes
  match cb with
  | none =>
    (backend,
      { op_job with
        parent := g_vfs_job_failed op_job.parent GIOErrorEnum.G_IO_ERROR_NOT_SUPPORTED
          "Operation not supported by backend" })
  | some cb => cb backend op_job op_job.filename

/-- The function `try` of gvfsjobqueryattributes.c. -/
def try_ {β : Type} (cls : GVfsBackendClass β) (backend : β)
    (op_job : GVfsJobQueryAttributes) : Bool × β × GVfsJobQueryAttributes :=
  let cb :=
    if op_job.namespaces then cls.try_query_writable_namespaces
    else cls.try_query_settable_attributes
  match cb with
  | none => (false, backend, op_job)
  | some cb => cb backend op_job op_job.filename

end JobQueryAttributes

/-! ## SFTP backend, mount: `daemon/gvfsbackendsftp.c` -/

/-- Modelled from the spec: the ssh program of the subprocess argv, the macro
`SSH_PROGRAM` of the generated `config.h`, which is not among the sources at hand. -/
def SSH_PROGRAM : String := "ssh"

/-- The bytes of a C string (without the terminating NUL). -/
def string_bytes (s : String) : List Byte :=
  s.toUTF8.data.toList.map (fun b => byte_of b.toNat)

/-- GLib's `g_str_has_suffix`. -/
def g_str_has_suffix (str : String) (suffix : String) : Bool :=
  suffix.data.isSuffixOf str.data

/-- GLib's `g_str_has_prefix`. -/
def g_str_has_prefix (str : String) (pfx : String) : Bool :=
  pfx.data.isPrefixOf str.data

/-- The spawned child: its pid and the descriptors handed back by the spawn. -/
structure SshChild where
  pid : Int
  tty_fd : Int
  stdin_fd : Int
  stdout_fd : Int
  stderr_fd : Int
deriving DecidableEq, Repr

/-- What `g_mount_source_ask_password` hands back: its return value, `aborted`, and the
password. -/
structure AskPasswordReply where
  handled : Bool
  aborted : Bool
  new_password : String
deriving DecidableEq, Repr

/-- One round of the loop of `handle_login`, as the outside world decides it: the
`select` returns 0 or less; or the child's stdout is among the readable descriptors; or
only the prompt descriptor is, and the read from it fails, or yields `buffer` (in which
case `reply` is what the credential source answers if it is asked in this round). -/
inductive LoginEvent where
  | timed_out
  | stdout_readable
  | prompt_read_failed (error : GError)
  | prompt (buffer : String) (reply : AskPasswordReply)
deriving DecidableEq, Repr

/-- The outside world of the SFTP backend: the build configuration (`USE_PTY`), what
`ssh -V` yields, the OS user name, what a spawn with a given argument vector yields (the
child, or the message of the spawn error), whether `select` on a descriptor with a given
timeout in seconds reports it readable, the rounds of the login loop for a given prompt
descriptor and timeout in seconds, what can be read from a descriptor, whether writing to
a descriptor fails, and the initial bytes of the local `len` of `read_reply_sync`. -/
structure SftpEnv where
  use_pty : Bool
  ssh_V : Option (Option String)
  user_name : String
  spawn : List (Option String) → Except String SshChild
  select_stdout : Int → Nat → Bool
  login : Int → Nat → List LoginEvent
  input : Int → List Byte × Option GError
  output_broken : Int → Bool
  len_mem : List Byte

/-- One call of `g_mount_source_ask_password`: the message and the default user. -/
structure AskPasswordQuery where
  message : String
  default_user : Option String
deriving DecidableEq, Repr

/-- The SFTP backend with all it can reach: the instance, the outside world, and a record
of what `do_mount` did to the outside world: the argument vector of the spawn, the stream
`so` on the child's stdin, the stream on which `handle_login` answered prompts, and the
queries put to the credential source. -/
structure SftpWorld where
  backend : GVfsBackendSftp
  os : SftpEnv
  spawned : Option (List (Option String))
  so : Option GOutputStream
  login_reply_stream : Option GOutputStream
  asked : List AskPasswordQuery

/-- The argument-vector writes `args[last_arg++] = ...` of `setup_ssh_commandline`: the
array and `last_arg` after writing the items in order. -/
def write_args (items : List (Option String)) : List (Option String) × Nat :=
  items.foldl (fun st item => (st.1.set st.2 item, st.2 + 1)) (List.replicate 20 none, 0)

/-- The function `setup_ssh_commandline`: the 20-slot array (a `NULL` slot is `none`;
`g_strdup (NULL)` is `NULL`) and the final value of `last_arg`.  `use_pty` tells whether
`USE_PTY` is defined. -/
def setup_ssh_commandline (use_pty : Bool) (op_backend : GVfsBackendSftp) :
    List (Option String) × Nat :=
  write_args
    ([some SSH_PROGRAM]
      ++ (if op_backend.client_vendor = SFTPClientVendor.SFTP_VENDOR_OPENSSH then
            [some "-oForwardX11 no", some "-oForwardAgent no",
              some "-oClearAllForwardings yes", some "-oProtocol 2",
              some "-oNoHostAuthenticationForLocalhost yes"]
            ++ (if use_pty then [] else [some "-oBatchMode yes"])
          else if op_backend.client_vendor = SFTPClientVendor.SFTP_VENDOR_SSH then
            [some "-x"]
          else [])
      ++ [some "-l", op_backend.user, some "-s"]
      ++ (if op_backend.client_vendor = SFTPClientVendor.SFTP_VENDOR_SSH then
            [some "sftp", op_backend.host]
          else
            [op_backend.host, some "sftp"])
      ++ [none])

/-- The function `spawn_ssh`: the child, or the error.  With `USE_PTY` the spawn is
`pty_open`, which fails by returning -1 as the tty descriptor; without it the spawn is
`g_spawn_async_with_pipes` and the tty descriptor is -1. -/
def spawn_ssh (os : SftpEnv) (args : List (Option String)) : Except GError SshChild :=
  if os.use_pty then
    match os.spawn args with
    | Except.ok child =>
      if child.tty_fd = -1 then
        Except.error ⟨GIOErrorEnum.G_IO_ERROR_FAILED, "Unable to spawn ssh program"⟩
      else Except.ok child
    | Except.error _ =>
      Except.error ⟨GIOErrorEnum.G_IO_ERROR_FAILED, "Unable to spawn ssh program"⟩
  else
    match os.spawn args with
    | Except.ok child => Except.ok { child with tty_fd := -1 }
    | Except.error msg =>
      Except.error ⟨GIOErrorEnum.G_IO_ERROR_FAILED, "Unable to spawn ssh program: " ++ msg⟩

/-- What a login attempt returns: `ret_val`, the error, the stream on which prompts were
answered, and the queries put to the credential source. -/
structure LoginResult where
  ret_val : Bool
  error : Option GError
  reply_stream : Option GOutputStream
  asked : List AskPasswordQuery
deriving DecidableEq, Repr

/-- The function `wait_for_reply`: one `select` on the child's stdout with a timeout of
20 seconds. -/
def wait_for_reply (os : SftpEnv) (stdout_fd : Int) : LoginResult :=
  if os.select_stdout stdout_fd 20 then
    { ret_val := true, error := none, reply_stream := none, asked := [] }
  else
    { ret_val := false,
      error := some ⟨GIOErrorEnum.G_IO_ERROR_TIMED_OUT, "Timed out when logging in"⟩,
      reply_stream := none, asked := [] }

/-- The `while (1)` loop of `handle_login`, over the rounds the outside world provides;
when no round is left nothing becomes readable any more and the `select` times out. -/
def handle_login_loop (user : Option String) :
    List LoginEvent → GOutputStream → List AskPasswordQuery → LoginResult
  | [], reply_stream, asked =>
    { ret_val := false,
      error := some ⟨GIOErrorEnum.G_IO_ERROR_TIMED_OUT, "Timed out when logging in"⟩,
      reply_stream := some reply_stream, asked := asked }
  | LoginEvent.timed_out :: _, reply_stream, asked =>
    { ret_val := false,
      error := some ⟨GIOErrorEnum.G_IO_ERROR_TIMED_OUT, "Timed out when logging in"⟩,
      reply_stream := some reply_stream, asked := asked }
  | LoginEvent.stdout_readable :: _, reply_stream, asked =>
    { ret_val := true, error := none, reply_stream := some reply_stream, asked := asked }
  | LoginEvent.prompt_read_failed error :: _, reply_stream, asked =>
    { ret_val := false, error := some error, reply_stream := some reply_stream,
      asked := asked }
  | LoginEvent.prompt buffer reply :: rounds, reply_stream, asked =>
    if g_str_has_suffix buffer "password: " || g_str_has_suffix buffer "Password: " ||
        g_str_has_suffix buffer "Password:" ||
        g_str_has_prefix buffer "Enter passphrase for key" then
      let query : AskPasswordQuery :=
        { message :=
            if g_str_has_prefix buffer "Enter passphrase for key" then
              "Enter passphrase for key"
            else "Enter password",
          default_user := user }
      if !reply.handled || reply.aborted then
        { ret_val := false,
          error := some ⟨GIOErrorEnum.G_IO_ERROR_PERMISSION_DENIED,
            "Password dialog cancelled"⟩,
          reply_stream := some reply_stream, asked := asked ++ [query] }
      else
        let w1 := g_output_stream_write_all reply_stream (string_bytes reply.new_password)
        if !w1.1 then
          { ret_val := false,
            error := some ⟨GIOErrorEnum.G_IO_ERROR_PERMISSION_DENIED, "Can't send password"⟩,
            reply_stream := some w1.2, asked := asked ++ [query] }
        else
          let w2 := g_output_stream_write_all w1.2 (string_bytes "\n")
          if !w2.1 then
            { ret_val := false,
              error := some ⟨GIOErrorEnum.G_IO_ERROR_PERMISSION_DENIED,
                "Can't send password"⟩,
              reply_stream := some w2.2, asked := asked ++ [query] }
          else handle_login_loop user rounds w2.2 (asked ++ [query])
    else
      handle_login_loop user rounds reply_stream asked

/-- The function `handle_login`: prompts are read from the child's stderr for the legacy
client and from the tty otherwise, answers are written to the tty, and every `select`
has a timeout of 20 seconds. -/
def handle_login (os : SftpEnv) (op_backend : GVfsBackendSftp)
    (_mount_source : GMountSource) (tty_fd _stdout_fd stderr_fd : Int) : LoginResult :=
  let prompt_fd :=
    if op_backend.client_vendor = SFTPClientVendor.SFTP_VENDOR_SSH then stderr_fd
    else tty_fd
  let reply_stream : GOutputStream :=
    { g_socket_output_stream_new tty_fd false with broken := os.output_broken tty_fd }
  handle_login_loop op_backend.user (os.login prompt_fd 20) reply_stream []

/-- The function `do_mount`. -/
def do_mount (w : SftpWorld) (job : GVfsJobMount) (_mount_spec : GMountSpec)
    (mount_source : GMountSource) (_is_automount : Bool) : SftpWorld × GVfsJobMount :=
  let args := setup_ssh_commandline w.os.use_pty w.backend
  match spawn_ssh w.os args.1 with
  | Except.error error =>
    (w, { job with parent := g_vfs_job_failed_from_error job.parent error })
  | Except.ok child =>
    let so : GOutputStream :=
      { g_socket_output_stream_new child.stdin_fd true with
        broken := w.os.output_broken child.stdin_fd }
    let sent := do_mount_send_init so
    let res :=
      if child.tty_fd = -1 then wait_for_reply w.os child.stdout_fd
      else handle_login w.os w.backend mount_source child.tty_fd child.stdout_fd
        child.stderr_fd
    let w1 : SftpWorld :=
      { w with spawned := some args.1, so := some sent.2,
               login_reply_stream := res.reply_stream, asked := res.asked }
    if !res.ret_val then
      (w1,
        match res.error with
        | some error => { job with parent := g_vfs_job_failed_from_error job.parent error }
        | none => job)
    else
      let command_stream : GOutputStream :=
        { g_socket_output_stream_new child.stdout_fd true with
          broken := w.os.output_broken child.stdout_fd }
      let reply_stream : GInputStream :=
        { fd := child.stdout_fd, data := (w.os.input child.stdout_fd).1,
          error_at_end := (w.os.input child.stdout_fd).2 }
      let backend1 : GVfsBackendSftp :=
        { w.backend with command_stream := some command_stream,
                         reply_stream := some reply_stream }
      match read_reply_sync backend1 w.os.len_mem with
      | (none, error, backend2) =>
        ({ w1 with backend := backend2 },
          match error with
          | some error => { job with parent := g_vfs_job_failed_from_error job.parent error }
          | none => job)
      | (some _, _, backend2) =>
        let sftp_mount_spec := g_mount_spec_new "sftp"
        let sftp_mount_spec :=
          if backend2.user_specified then
            match backend2.user with
            | some user => g_mount_spec_set sftp_mount_spec "user" user
            | none => sftp_mount_spec
          else sftp_mount_spec
        let sftp_mount_spec :=
          match backend2.host with
          | some host => g_mount_spec_set sftp_mount_spec "host" host
          | none => sftp_mount_spec
        ({ w1 with backend := { backend2 with mount_spec := some sftp_mount_spec } },
          { job with parent := g_vfs_job_succeeded job.parent })

/-- The function `try_mount`. -/
def try_mount (w : SftpWorld) (job : GVfsJobMount) (mount_spec : GMountSpec)
    (_mount_source : GMountSource) (_is_automount : Bool) :
    Bool × SftpWorld × GVfsJobMount :=
  let backend1 : GVfsBackendSftp :=
    { w.backend with client_vendor := get_sftp_client_vendor w.os.ssh_V }
  if backend1.client_vendor = SFTPClientVendor.SFTP_VENDOR_INVALID then
    (true, { w with backend := backend1 },
      { job with
        parent := g_vfs_job_failed job.parent GIOErrorEnum.G_IO_ERROR_FAILED
          "Unable to find supported ssh command" })
  else
    match g_mount_spec_get mount_spec "host" with
    | none =>
      (true, { w with backend := backend1 },
        { job with
          parent := g_vfs_job_failed job.parent GIOErrorEnum.G_IO_ERROR_INVALID_ARGUMENT
            "Invalid mount spec" })
    | some host =>
      let user := g_mount_spec_get mount_spec "user"
      let backend2 : GVfsBackendSftp := { backend1 with host := some host, user := user }
      let backend3 : GVfsBackendSftp :=
        if backend2.user.isSome then { backend2 with user_specified := true }
        else { backend2 with user := some w.os.user_name }
      (false, { w with backend := backend3 }, job)

/-- The function `do_open_for_read`: its body is a `TODO` and code under `#if 0`. -/
def do_open_for_read (w : SftpWorld) (job : GVfsJob) (_filename : String) :
    SftpWorld × GVfsJob :=
  (w, job)

/-- The function `do_read`: its body is a `TODO` and code under `#if 0`. -/
def do_read (w : SftpWorld) (job : GVfsJob) (_handle : GVfsBackendHandle)
    (_buffer : List Byte) (_bytes_requested : Nat) : SftpWorld × GVfsJob :=
  (w, job)

/-- The function `do_seek_on_read`: its body is a `TODO` and code under `#if 0`. -/
def do_seek_on_read (w : SftpWorld) (job : GVfsJob) (_handle : GVfsBackendHandle)
    (_offset : Int) (_type : GSeekType) : SftpWorld × GVfsJob :=
  (w, job)

/-- The function `do_close_read`: a `TODO`, code under `#if 0`, and
`g_vfs_job_succeeded`. -/
def do_close_read (w : SftpWorld) (job : GVfsJob) (_handle : GVfsBackendHandle) :
    SftpWorld × GVfsJob :=
  (w, g_vfs_job_succeeded job)

/-- The function `do_create`: its body is a `TODO` and code under `#if 0`. -/
def do_create (w : SftpWorld) (job : GVfsJob) (_filename : String) : SftpWorld × GVfsJob :=
  (w, job)

/-- The function `do_append_to`: its body is a `TODO` and code under `#if 0`. -/
def do_append_to (w : SftpWorld) (job : GVfsJob) (_filename : String) :
    SftpWorld × GVfsJob :=
  (w, job)

/-- The function `do_replace`: its body is a `TODO`. -/
def do_replace (w : SftpWorld) (job : GVfsJob) (_filename : String) (_mtime : Int)
    (_make_backup : Bool) : SftpWorld × GVfsJob :=
  (w, job)

/-- The function `do_write`: its body is a `TODO` and code under `#if 0`. -/
def do_write (w : SftpWorld) (job : GVfsJob) (_handle : GVfsBackendHandle)
    (_buffer : List Byte) (_buffer_size : Nat) : SftpWorld × GVfsJob :=
  (w, job)

/-- The function `do_seek_on_write`: its body is a `TODO`. -/
def do_seek_on_write (w : SftpWorld) (job : GVfsJob) (_handle : GVfsBackendHandle)
    (_offset : Int) (_type : GSeekType) : SftpWorld × GVfsJob :=
  (w, job)

/-- The function `do_close_write`: its body is a `TODO`. -/
def do_close_write (w : SftpWorld) (job : GVfsJob) (_handle : GVfsBackendHandle) :
    SftpWorld × GVfsJob :=
  (w, job)

/-- The function `do_get_info`: its body is a `TODO`. -/
def do_get_info (w : SftpWorld) (job : GVfsJob) (_filename : String)
    (_attributes : String) (_flags : Nat) : SftpWorld × GVfsJob :=
  (w, job)

/-- The function `do_get_fs_info`: its body is a `TODO`. -/
def do_get_fs_info (w : SftpWorld) (job : GVfsJob) (_filename : String)
    (_attributes : String) : SftpWorld × GVfsJob :=
  (w, job)

/-- The function `try_query_settable_attributes`: a `TODO`, then `return TRUE`. -/
def try_query_settable_attributes (w : SftpWorld) (job : GVfsJobQueryAttributes)
    (_filename : String) : Bool × SftpWorld × GVfsJobQueryAttributes :=
  (true, w, job)

/-- The function `do_enumerate`: its body is a `TODO`. -/
def do_enumerate (w : SftpWorld) (job : GVfsJob) (_filename : String)
    (_attributes : String) (_flags : Nat) : SftpWorld × GVfsJob :=
  (w, job)

/-- The function `do_set_display_name`: its body is a `TODO`. -/
def do_set_display_name (w : SftpWorld) (job : GVfsJob) (_filename : String)
    (_display_name : String) : SftpWorld × GVfsJob :=
  (w, job)

/-- The function `do_delete`: its body is a `TODO`. -/
def do_delete (w : SftpWorld) (job : GVfsJob) (_filename : String) : SftpWorld × GVfsJob :=
  (w, job)

/-- The function `do_make_directory`: its body is a `TODO`. -/
def do_make_directory (w : SftpWorld) (job : GVfsJob) (_filename : String) :
    SftpWorld × GVfsJob :=
  (w, job)

/-- The function `do_move`: its body is a `TODO`.  The progress callback and its data are
left out of the argument list. -/
def do_move (w : SftpWorld) (job : GVfsJob) (_source : String) (_destination : String)
    (_flags : Nat) : SftpWorld × GVfsJob :=
  (w, job)

/-- The function `g_vfs_backend_sftp_class_init`: the capability table of the SFTP
backend.  The slots it does not assign stay `NULL`. -/
def g_vfs_backend_sftp_class_init : GVfsBackendClass SftpWorld :=
  { mount := some do_mount
    try_mount := some try_mount
    open_for_read := some do_open_for_read
    read := some do_read
    seek_on_read := some do_seek_on_read
    close_read := some do_close_read
    create := some do_create
    append_to := some do_append_to
    replace := some do_replace
    write := some do_write
    seek_on_write := some do_seek_on_write
    close_write := some do_close_write
    get_info := some do_get_info
    get_fs_info := some do_get_fs_info
    enumerate := some do_enumerate
    set_display_name := some do_set_display_name
    delete := some do_delete
    make_directory := some do_make_directory
    move := some do_move
    query_settable_attributes := none
    try_query_settable_attributes := some try_query_settable_attributes
    query_writable_namespaces := none
    try_query_writable_namespaces := none }

/-- The function `g_vfs_backend_sftp_init`: it assigns nothing, so the instance is as the
object system hands it over, with every field zero. -/
def g_vfs_backend_sftp_init : GVfsBackendSftp :=
  { client_vendor := SFTPClientVendor.SFTP_VENDOR_INVALID, host := none,
    user_specified := false, user := none, command_stream := none, reply_stream := none,
    mount_spec := none }

/-- A fresh SFTP backend in a given outside world, before any mount attempt. -/
def new_sftp_world (os : SftpEnv) : SftpWorld :=
  { backend := g_vfs_backend_sftp_init, os := os, spawned := none, so := none,
    login_reply_stream := none, asked := [] }

/-- An outside world without any ssh program: the probe and every spawn fail, nothing
ever becomes readable. -/
def no_ssh_env : SftpEnv :=
  { use_pty := true, ssh_V := none, user_name := "me",
    spawn := fun _ => Except.error "No such file or directory",
    select_stdout := fun _ _ => false, login := fun _ _ => [],
    input := fun _ => ([], none), output_broken := fun _ => false,
    len_mem := [0, 0, 0, 0] }

/-- The text contains the marker: the marker occurs somewhere in the text. -/
def contains_text (text marker : String) : Prop :=
  ∃ pre post : List Char, text.data = pre ++ marker.data ++ post

/-- Modelled from the spec: the dispatch of a mount job by the job queue, which is not
among the sources at hand: the queue invokes `try`, and invokes `run` only if `try`
returned `not_handled`. -/
def dispatch_mount_job {β : Type} (cls : GVfsBackendClass β) (backend : β)
    (op_job : GVfsJobMount) : β × GVfsJobMount :=
  let r := JobMount.try_ cls backend op_job
  if r.1 then r.2 else JobMount.run cls r.2.1 r.2.2

/-- A capability table with no slot filled in. -/
def empty_backend_class (β : Type) : GVfsBackendClass β :=
  { mount := none, try_mount := none, open_for_read := none, read := none,
    seek_on_read := none, close_read := none, create := none, append_to := none,
    replace := none, write := none, seek_on_write := none, close_write := none,
    get_info := none, get_fs_info := none, enumerate := none, set_display_name := none,
    delete := none, make_directory := none, move := none,
    query_settable_attributes := none, try_query_settable_attributes := none,
    query_writable_namespaces := none, try_query_writable_namespaces := none }

/-- The argument vector that a `NULL`-terminated array of strings denotes: the elements
before the first `NULL`. -/
def strv (args : List (Option String)) : List String :=
  (args.takeWhile Option.isSome).filterMap id

/-- The condition under which the loop of `handle_login` turns to the credential source
(lines 405-408). -/
def prompt_asks_password (buffer : String) : Bool :=
  g_str_has_suffix buffer "password: " || g_str_has_suffix buffer "Password: " ||
    g_str_has_suffix buffer "Password:" ||
    g_str_has_prefix buffer "Enter passphrase for key"

/-- The query that the loop of `handle_login` puts to the credential source for a prompt
buffer (lines 410-421). -/
def password_query (user : Option String) (buffer : String) : AskPasswordQuery :=
  { message :=
      if g_str_has_prefix buffer "Enter passphrase for key" then
        "Enter passphrase for key"
      else "Enter password",
    default_user := user }

/-- An outside world with an OpenSSH client and a pty: the child has the tty on
descriptor 3 and stdin, stdout, stderr on 4, 5, 6; it prompts `Password: ` once, the
credential source answers `secret`, then the child's stdout becomes readable and holds
the `VERSION` reply `00 00 00 05 02 00 00 00 03`. -/
def openssh_pty_env : SftpEnv :=
  { use_pty := true, ssh_V := some (some "OpenSSH_4.7p1, OpenSSL 0.9.8g"),
    user_name := "me",
    spawn := fun _ => Except.ok ⟨100, 3, 4, 5, 6⟩,
    select_stdout := fun _ _ => true,
    login := fun fd timeout =>
      if fd = 3 ∧ timeout = 20 then
        [LoginEvent.prompt "Password: " ⟨true, false, "secret"⟩, LoginEvent.stdout_readable]
      else [],
    input := fun fd => if fd = 5 then ([0, 0, 0, 5, 2, 0, 0, 0, 3], none) else ([], none),
    output_broken := fun _ => false,
    len_mem := [0, 0, 0, 0] }

/-- The mount request of the scenarios: the spec `{type: sftp, host: h, user: u}` on a
pending job. -/
def sftp_mount_request : GVfsJobMount :=
  { parent := ⟨JobOutcome.pending⟩,
    mount_spec := ⟨[("type", "sftp"), ("host", "h"), ("user", "u")]⟩,
    mount_source := ⟨0⟩, is_automount := false, request := some ⟨1⟩ }

/-- Lines 504-507 of `do_mount`: the login attempt, by `wait_for_reply` when the spawn
gave no tty and by `handle_login` otherwise. -/
def do_mount_login (w : SftpWorld) (mount_source : GMountSource) (child : SshChild) :
    LoginResult :=
  if child.tty_fd = -1 then wait_for_reply w.os child.stdout_fd
  else handle_login w.os w.backend mount_source child.tty_fd child.stdout_fd
    child.stderr_fd

/-- The outside world `openssh_pty_env`, except that the child never prompts and its
stdout never becomes readable. -/
def silent_pty_env : SftpEnv :=
  { openssh_pty_env with login := fun _ _ => [], select_stdout := fun _ _ => false }

/-- The SFTP backend in a given outside world after `try_mount` has handled the request
`sftp_mount_request`. -/
def world_after_try_mount (os : SftpEnv) : SftpWorld :=
  (try_mount (new_sftp_world os) sftp_mount_request sftp_mount_request.mount_spec
    sftp_mount_request.mount_source sftp_mount_request.is_automount).2.1

/-- Lines 528-531 of `do_mount`: the mount spec that a successful mount publishes for a
backend. -/
def published_mount_spec (op_backend : GVfsBackendSftp) : GMountSpec :=
  let sftp_mount_spec := g_mount_spec_new "sftp"
  let sftp_mount_spec :=
    if op_backend.user_specified then
      match op_backend.user with
      | some user => g_mount_spec_set sftp_mount_spec "user" user
      | none => sftp_mount_spec
    else sftp_mount_spec
  match op_backend.host with
  | some host => g_mount_spec_set sftp_mount_spec "host" host
  | none => sftp_mount_spec

/-- Lines 515-516 of `do_mount`: the backend with its two streams set up after the
login. -/
def backend_with_streams (w : SftpWorld) (child : SshChild) : GVfsBackendSftp :=
  { w.backend with
    command_stream :=
      some { g_socket_output_stream_new child.stdout_fd true with
             broken := w.os.output_broken child.stdout_fd },
    reply_stream :=
      some { fd := child.stdout_fd, data := (w.os.input child.stdout_fd).1,
             error_at_end := (w.os.input child.stdout_fd).2 } }

/-- The outside world `openssh_pty_env`, except that the child's stdout holds the length
prefix `00 00 00 05` and one payload byte, and then ends with end-of-file. -/
def early_eof_env : SftpEnv :=
  { openssh_pty_env with
    input := fun fd => if fd = 5 then ([0, 0, 0, 5, 2], none) else ([], none) }

/-! ## Local file input stream: `gio/glocalfileinputstream.c` -/

/-- What one call of the OS primitive `read` yields: a byte count, or -1 with `errno`
set. -/
inductive OsReadResult where
  | bytes (count : Nat)
  | failed (errno : Int)
deriving DecidableEq, Repr

/-- The `errno` value `EINTR` of the C library (4 on Linux). -/
def EINTR : Int := 4

/-- The `while (1)` loop of `g_local_file_input_stream_read`.  `res` is the local of that
name, `attempt` counts the passes through the loop, `cancelled attempt` is what
`g_cancellable_is_cancelled` answers in that pass, and `reads` lists what the calls of
`read` will yield.  `from_errno` stands for `g_io_error_from_errno` (gio/gioerror.c, not
among the sources at hand) and `strerror` for GLib's `g_strerror`.  The result is the
returned `gssize` and the error set, or `none` when the listed results are used up
before the loop ends. -/
def local_read_loop (from_errno : Int → GIOErrorEnum) (strerror : Int → String)
    (cancelled : Nat → Bool) :
    Int → Nat → List OsReadResult → Option (Int × Option GError)
  | res, attempt, reads =>
    if cancelled attempt then
      some (res, some ⟨GIOErrorEnum.G_IO_ERROR_CANCELLED, "Operation was cancelled"⟩)
    else
      match reads with
      | [] => none
      | OsReadResult.bytes count :: _ => some ((count : Int), none)
      | OsReadResult.failed errno :: rest =>
        if errno = EINTR then
          local_read_loop from_errno strerror cancelled (-1) (attempt + 1) rest
        else
          some (-1,
            some ⟨from_errno errno, "Error reading from file: " ++ strerror errno⟩)

/-- The function `g_local_file_input_stream_read`: `res` starts at -1. -/
def g_local_file_input_stream_read (from_errno : Int → GIOErrorEnum)
    (strerror : Int → String) (cancelled : Nat → Bool) (reads : List OsReadResult) :
    Option (Int × Option GError) :=
  local_read_loop from_errno strerror cancelled (-1) 0 reads

/-! ## Enumerator object paths and the error out-parameter:
`client/gdaemonfileenumerator.c` -/

/-- The macro `OBJ_PATH_PREFIX`. -/
def OBJ_PATH_PREFIX : String := "/org/gtk/vfs/client/enumerator/"

/-- What a `gint` holds after an arithmetic result is stored in it: the result reduced to
the 32-bit two's-complement range. -/
def wrap_gint (x : Int) : Int := (x + 2 ^ 31) % 2 ^ 32 - 2 ^ 31

/-- The initial value of the global `path_counter`. -/
def path_counter : Int := 1

/-- GLib's `g_atomic_int_exchange_and_add (atomic, val)`, as one step: the value of the
integer before the addition, and its content after. -/
def g_atomic_int_exchange_and_add (atomic val : Int) : Int × Int :=
  (atomic, wrap_gint (atomic + val))

/-- The function `g_daemon_file_enumerator_get_object_path`: the prefix followed by the
id printed with `%d`. -/
def g_daemon_file_enumerator_get_object_path {ι : Type}
    (enumerator : GDaemonFileEnumerator ι) : String :=
  OBJ_PATH_PREFIX ++ toString enumerator.id

/-- A call of `_g_dbus_register_vfs_filter` or of `_g_dbus_unregister_vfs_filter`, with
the path it is given. -/
inductive VfsFilterCall where
  | register (path : String)
  | unregister (path : String)
deriving DecidableEq, Repr

/-- The function `g_daemon_file_enumerator_init`, on an instance with every other field
zero: given the content of `path_counter`, the enumerator, the content of `path_counter`
afterwards, and the registration it makes. -/
def g_daemon_file_enumerator_init (ι : Type) (counter : Int) :
    GDaemonFileEnumerator ι × Int × VfsFilterCall :=
  let r := g_atomic_int_exchange_and_add counter 1
  let daemon : GDaemonFileEnumerator ι := { id := r.1, infos := [], done := false }
  (daemon, r.2, VfsFilterCall.register (g_daemon_file_enumerator_get_object_path daemon))

/-- The function `g_daemon_file_enumerator_finalize`, as far as the filter registry is
concerned: the call it makes. -/
def g_daemon_file_enumerator_finalize {ι : Type} (daemon : GDaemonFileEnumerator ι) :
    VfsFilterCall :=
  VfsFilterCall.unregister (g_daemon_file_enumerator_get_object_path daemon)

/-- The function `g_daemon_file_enumerator_new` called `n` times in a row, from a given
content of `path_counter`: the enumerators in the order of their construction, and the
content of `path_counter` afterwards. -/
def construct_enumerators (ι : Type) : Nat → Int → List (GDaemonFileEnumerator ι) × Int
  | 0, counter => ([], counter)
  | n + 1, counter =>
    let r := g_daemon_file_enumerator_init ι counter
    let rest := construct_enumerators ι n r.2.1
    (r.1 :: rest.1, rest.2)

/-- A call of `g_daemon_file_enumerator_next_file` together with its out-parameter
`error`, given as what the caller's `GError *` holds before the call: no statement of
the function assigns it.  The result lists the returned `GFileInfo`, what the caller's
`GError *` holds afterwards, the enumerator and the messages not dispatched. -/
def next_file_call {σ ι : Type} (get_file_info : List σ → Option ι × List σ)
    (fuel : Nat) (daemon : GDaemonFileEnumerator ι) (bus : List (DBusMessage σ))
    (error : Option GError) :
    Option (Option ι × Option GError × GDaemonFileEnumerator ι × List (DBusMessage σ)) :=
  (g_daemon_file_enumerator_next_file get_file_info fuel daemon bus).map
    (fun r => (r.1, error, r.2.1, r.2.2))

/-- The items that `setup_ssh_commandline` writes into its array, in the order of the
writes (lines 131-173). -/
def ssh_commandline_items (use_pty : Bool) (op_backend : GVfsBackendSftp) :
    List (Option String) :=
  [some SSH_PROGRAM]
    ++ (if op_backend.client_vendor = SFTPClientVendor.SFTP_VENDOR_OPENSSH then
          [some "-oForwardX11 no", some "-oForwardAgent no",
            some "-oClearAllForwardings yes", some "-oProtocol 2",
            some "-oNoHostAuthenticationForLocalhost yes"]
          ++ (if use_pty then [] else [some "-oBatchMode yes"])
        else if op_backend.client_vendor = SFTPClientVendor.SFTP_VENDOR_SSH then
          [some "-x"]
        else [])
    ++ [some "-l", op_backend.user, some "-s"]
    ++ (if op_backend.client_vendor = SFTPClientVendor.SFTP_VENDOR_SSH then
          [some "sftp", op_backend.host]
        else
          [op_backend.host, some "sftp"])
    ++ [none]

theorem dbus_filter_loop_advancing {σ ι : Type} (gfi : List σ → Option ι × List σ)
    (parse : σ → Option ι) (hg : ∀ e rest, gfi (e :: rest) = (parse e, rest)) :
    ∀ (fuel : Nat) (elems : List σ) (iter : List (DBusArg σ)) (acc : List ι),
      elems.length < fuel →
      dbus_filter_loop gfi fuel elems iter acc
        = some ((elems.filterMap parse).reverse ++ acc) := by
  intro fuel
  induction fuel with
  | zero => intro elems iter acc h; omega
  | succ n ih =>
    intro elems iter acc h
    cases elems with
    | nil => simp [dbus_filter_loop]
    | cons e rest =>
      have hlen : rest.length < n := by simpa using h
      simp only [dbus_filter_loop, hg]
      rw [ih rest iter.tail _ hlen]
      cases hp : parse e <;> simp [List.filterMap_cons, hp]

/-- A parser that leaves the iterator where it found it keeps the loop of the filter
from ever ending on a non-empty batch: the loop advances the outer iterator only. -/
theorem dbus_filter_loop_stuck {σ ι : Type} (gfi : List σ → Option ι × List σ)
    (hg : ∀ it, (gfi it).2 = it) (e : σ) (rest : List σ) :
    ∀ (fuel : Nat) (iter : List (DBusArg σ)) (acc : List ι),
      dbus_filter_loop gfi fuel (e :: rest) iter acc = none := by
  intro fuel
  induction fuel with
  | zero => intro iter acc; rfl
  | succ n ih =>
    intro iter acc
    simp only [dbus_filter_loop, hg]
    exact ih _ _

theorem dbus_filter_done {σ ι : Type} (gfi : List σ → Option ι × List σ) (fuel : Nat)
    (d : GDaemonFileEnumerator ι) :
    g_daemon_file_enumerator_dbus_filter gfi fuel d (done_message : DBusMessage σ)
      = some { d with done := true } := by
  simp [g_daemon_file_enumerator_dbus_filter, done_message]

theorem dbus_filter_got_info {σ ι : Type} (gfi : List σ → Option ι × List σ)
    (parse : σ → Option ι) (hg : ∀ e rest, gfi (e :: rest) = (parse e, rest))
    (fuel : Nat) (d : GDaemonFileEnumerator ι) (b : List σ) (hb : b.length < fuel) :
    g_daemon_file_enumerator_dbus_filter gfi fuel d (got_info_message b)
      = some { d with infos := d.infos ++ b.filterMap parse } := by
  have hne : G_VFS_DBUS_ENUMERATOR_GOT_INFO ≠ G_VFS_DBUS_ENUMERATOR_DONE := by decide
  simp [g_daemon_file_enumerator_dbus_filter, dbus_filter_collect, got_info_message, hne,
    dbus_filter_loop_advancing gfi parse hg fuel b _ [] hb]

theorem session_deliver {σ ι : Type} (gfi : List σ → Option ι × List σ)
    (parse : σ → Option ι) (hg : ∀ e rest, gfi (e :: rest) = (parse e, rest))
    (fuel : Nat) (d : GDaemonFileEnumerator ι) (m : DBusMessage σ)
    (bus : List (DBusMessage σ)) (l : List ι)
    (h : SessionView parse fuel d (m :: bus) l) :
    ∃ d1, g_daemon_file_enumerator_dbus_filter gfi fuel d m = some d1 ∧
      SessionView parse fuel d1 bus l := by
  rcases h with ⟨_, hbus, _⟩ | ⟨hd, batches, hbus, hfuel, hl⟩
  · cases hbus
  · cases batches with
    | nil =>
      simp only [List.map_nil, List.nil_append, List.cons.injEq] at hbus
      obtain ⟨rfl, rfl⟩ := hbus
      refine ⟨_, dbus_filter_done gfi fuel d, Or.inl ⟨rfl, rfl, ?_⟩⟩
      simp [hl, parsed_entries]
    | cons b bs =>
      simp only [List.map_cons, List.cons_append, List.cons.injEq] at hbus
      obtain ⟨rfl, rfl⟩ := hbus
      have hb : b.length < fuel := hfuel b (List.mem_cons_self _ _)
      refine ⟨_, dbus_filter_got_info gfi parse hg fuel d b hb, Or.inr ⟨hd, bs, rfl, ?_, ?_⟩⟩
      · intro b1 hb1
        exact hfuel b1 (List.mem_cons_of_mem _ hb1)
      · simp [hl, parsed_entries]

theorem session_pull {σ ι : Type} (gfi : List σ → Option ι × List σ)
    (parse : σ → Option ι) (hg : ∀ e rest, gfi (e :: rest) = (parse e, rest))
    (fuel : Nat) :
    ∀ (bus : List (DBusMessage σ)) (d : GDaemonFileEnumerator ι) (l : List ι),
      SessionView parse fuel d bus l →
      ∃ d1 bus1, g_daemon_file_enumerator_next_file gfi fuel d bus
          = some (l.head?, d1, bus1) ∧ SessionView parse fuel d1 bus1 l.tail := by
  intro bus
  induction bus with
  | nil =>
    intro d l h
    rcases h with ⟨hd, _, hl⟩ | ⟨_, batches, hbus, _, _⟩
    · cases hi : d.infos with
      | nil =>
        refine ⟨d, [], ?_, Or.inl ⟨hd, rfl, ?_⟩⟩
        · rw [g_daemon_file_enumerator_next_file]
          simp [hi, hd, ← hl]
        · simp [← hl, hi]
      | cons x xs =>
        refine ⟨{ d with infos := xs }, [], ?_, Or.inl ⟨hd, rfl, ?_⟩⟩
        · rw [g_daemon_file_enumerator_next_file]
          simp [hi, ← hl]
        · simp [← hl, hi]
    · simp at hbus
  | cons m bus ih =>
    intro d l h
    cases hi : d.infos with
    | cons x xs =>
      rcases h with ⟨_, hbus, _⟩ | ⟨hd, batches, hbus, hfuel, hl⟩
      · cases hbus
      · refine ⟨{ d with infos := xs }, m :: bus, ?_, Or.inr ⟨hd, batches, hbus, hfuel, ?_⟩⟩
        · rw [g_daemon_file_enumerator_next_file]
          simp [hi, hl]
        · simp [hl, hi]
    | nil =>
      have hd : d.done = false := by
        rcases h with ⟨_, hbus, _⟩ | ⟨hd, _⟩
        · cases hbus
        · exact hd
      obtain ⟨d1, hf, hv⟩ := session_deliver gfi parse hg fuel d m bus l h
      obtain ⟨d2, bus2, hn, hv2⟩ := ih d1 l hv
      refine ⟨d2, bus2, ?_, hv2⟩
      rw [g_daemon_file_enumerator_next_file]
      simp [hi, hd, hf, hn]

theorem session_run {σ ι : Type} (gfi : List σ → Option ι × List σ)
    (parse : σ → Option ι) (hg : ∀ e rest, gfi (e :: rest) = (parse e, rest))
    (fuel : Nat) :
    ∀ (sched : List EnumeratorEvent) (d : GDaemonFileEnumerator ι)
      (bus : List (DBusMessage σ)) (l : List ι),
      SessionView parse fuel d bus l →
      run_enumerator gfi fuel sched d bus = some (observe sched l) := by
  intro sched
  induction sched with
  | nil => intro d bus l _; rfl
  | cons ev es ih =>
    intro d bus l h
    cases ev with
    | deliver =>
      cases bus with
      | nil => simpa [run_enumerator, observe] using ih d [] l h
      | cons m bus =>
        obtain ⟨d1, hf, hv⟩ := session_deliver gfi parse hg fuel d m bus l h
        simpa [run_enumerator, observe, hf] using ih d1 bus l hv
    | pull =>
      obtain ⟨d1, bus1, hn, hv⟩ := session_pull gfi parse hg fuel bus d l h
      simp [run_enumerator, observe, hn, ih d1 bus1 l.tail hv]

theorem observe_pulls {ι : Type} :
    ∀ (l : List ι) (k : Nat),
      observe (List.replicate (l.length + 1 + k) EnumeratorEvent.pull) l
        = l.map some ++ List.replicate (k + 1) none := by
  intro l
  induction l with
  | nil =>
    intro k
    induction k with
    | zero => rfl
    | succ n ihn =>
      have : ([] : List ι).length + 1 + (n + 1) = (([] : List ι).length + 1 + n) + 1 := by
        omega
      rw [this, List.replicate_succ, observe, List.tail_nil, ihn]
      simp [List.replicate_succ]
  | cons x xs ih =>
    intro k
    have : (x :: xs).length + 1 + k = (xs.length + 1 + k) + 1 := by simp; omega
    rw [this, List.replicate_succ, observe, List.tail_cons, ih k]
    simp

/-- C1. When the producer delivers the batches `B1..Bn` as `GOT_INFO` messages and then
`DONE`, in that order, and the struct parser turns the struct under the iterator into
`parse e` and leaves the iterator behind it, then (with fuel above every batch length)
the filter returns on each of these messages in every state, and under every
interleaving of filter deliveries and `next_file` calls the calls return the entries of
`B1, ..., Bn` that parse to a `FileInfo`, in batch order and in within-batch order, and
end-of-stream afterwards; in particular `|entries| + 1 + k` successive calls return the
entries followed by `k + 1` times end-of-stream. -/
theorem enumerator_delivers_batches_in_order {σ ι : Type}
    (gfi : List σ → Option ι × List σ) (parse : σ → Option ι)
    (hg : ∀ e rest, gfi (e :: rest) = (parse e, rest))
    (fuel : Nat) (id : Int) (batches : List (List σ))
    (hfuel : ∀ b ∈ batches, b.length < fuel) :
    (∀ (d : GDaemonFileEnumerator ι),
        ∀ m ∈ batches.map got_info_message ++ [done_message],
          (g_daemon_file_enumerator_dbus_filter gfi fuel d m).isSome = true) ∧
    (∀ sched : List EnumeratorEvent,
        run_enumerator gfi fuel sched { id := id, infos := [], done := false }
            (batches.map got_info_message ++ [done_message])
          = some (observe sched (parsed_entries parse batches))) ∧
    (∀ k : Nat,
        run_enumerator gfi fuel
            (List.replicate ((parsed_entries parse batches).length + 1 + k)
              EnumeratorEvent.pull)
            { id := id, infos := [], done := false }
            (batches.map got_info_message ++ [done_message])
          = some ((parsed_entries parse batches).map some
              ++ List.replicate (k + 1) none)) := by
  have hview : SessionView parse fuel
      ({ id := id, infos := [], done := false } : GDaemonFileEnumerator ι)
      (batches.map got_info_message ++ [done_message]) (parsed_entries parse batches) :=
    Or.inr ⟨rfl, batches, rfl, hfuel, by simp⟩
  refine ⟨?_, ?_, ?_⟩
  · intro d m hm
    rcases List.mem_append.1 hm with h | h
    · obtain ⟨b, hb, rfl⟩ := List.mem_map.1 h
      rw [dbus_filter_got_info gfi parse hg fuel d b (hfuel b hb)]
      rfl
    · rw [List.mem_singleton.1 h, dbus_filter_done]
      rfl
  · intro sched
    exact session_run gfi parse hg fuel sched _ _ _ hview
  · intro k
    rw [session_run gfi parse hg fuel _ _ _ _ hview, observe_pulls]

/-- Witness for C1: the batches `[a, b]`, `[c]`, then `DONE`, pulled four times, give
`a, b, c, end`. -/
theorem enumerator_delivers_batches_in_order_witness :
    run_enumerator (dbus_get_file_info (fun s : String => some s)) 3
        [EnumeratorEvent.pull, EnumeratorEvent.pull, EnumeratorEvent.pull,
          EnumeratorEvent.pull]
        { id := 1, infos := [], done := false }
        [got_info_message ["a", "b"], got_info_message ["c"], done_message]
      = some [some "a", some "b", some "c", none] :=
  (enumerator_delivers_batches_in_order (dbus_get_file_info (fun s : String => some s))
    (fun s => some s) (fun _ _ => rfl) 3 1 [["a", "b"], ["c"]] (by decide)).2.2 0

/-- C2. `g_daemon_file_enumerator_next_file` is the pull loop of the spec: on a non-empty
pending list it returns the first element, leaves the tail and does not touch `done`
(whatever its value) nor the bus; on an empty list with `done` set it returns
end-of-stream, changing nothing and dispatching nothing; on an empty list with `done`
unset it goes to the bus: a `FALSE` from read-dispatch ends the call with `NULL`, and a
dispatched message is handled by the filter before the loop starts over. -/
theorem next_file_is_pull_loop {σ ι : Type} (gfi : List σ → Option ι × List σ)
    (fuel : Nat) (id : Int) (x : ι) (xs : List ι) (dn : Bool) (m : DBusMessage σ)
    (bus : List (DBusMessage σ)) :
    g_daemon_file_enumerator_next_file gfi fuel { id := id, infos := x :: xs, done := dn } bus
        = some (some x, { id := id, infos := xs, done := dn }, bus) ∧
    g_daemon_file_enumerator_next_file gfi fuel { id := id, infos := [], done := true } bus
        = some (none, { id := id, infos := [], done := true }, bus) ∧
    g_daemon_file_enumerator_next_file gfi fuel { id := id, infos := [], done := false }
        ([] : List (DBusMessage σ))
        = some (none, { id := id, infos := [], done := false }, []) ∧
    g_daemon_file_enumerator_next_file gfi fuel { id := id, infos := [], done := false }
        (m :: bus)
        = (g_daemon_file_enumerator_dbus_filter gfi fuel
            { id := id, infos := [], done := false } m).bind
          (fun d1 => g_daemon_file_enumerator_next_file gfi fuel d1 bus) := by
  refine ⟨?_, ?_, ?_, ?_⟩
  · cases bus <;> rfl
  · cases bus <;> rfl
  · rw [g_daemon_file_enumerator_next_file]
    simp
  · rw [g_daemon_file_enumerator_next_file]
    cases g_daemon_file_enumerator_dbus_filter gfi fuel
      { id := id, infos := [], done := false } m <;> simp

/-- C3, as the spec states it, fails: with `done` set, a `GOT_INFO` message carrying the
batch `[a]` is still appended to the (empty) pending list. -/
theorem dbus_filter_appends_after_done :
    g_daemon_file_enumerator_dbus_filter (dbus_get_file_info (fun s : String => some s)) 2
        { id := 1, infos := [], done := true } (got_info_message ["a"])
      = some { id := 1, infos := ["a"], done := true } ∧
    ({ id := 1, infos := ["a"], done := true } : GDaemonFileEnumerator String).infos
      ≠ ({ id := 1, infos := [], done := true } : GDaemonFileEnumerator String).infos := by
  constructor
  · rfl
  · decide

/-- C3, amended. In a state with `done` set: whenever the filter returns, `done` is still
set; a message whose member is not `GOT_INFO` (so `DONE`, or any other member) leaves the
whole state unchanged; a `GOT_INFO` message still appends the parsed entries of its batch
to the pending list, since the filter does not consult `done`. -/
theorem dbus_filter_when_done {σ ι : Type} (gfi : List σ → Option ι × List σ)
    (parse : σ → Option ι) (hg : ∀ e rest, gfi (e :: rest) = (parse e, rest))
    (fuel : Nat) (d : GDaemonFileEnumerator ι) (m : DBusMessage σ)
    (hd : d.done = true) :
    (∀ d1, g_daemon_file_enumerator_dbus_filter gfi fuel d m = some d1 →
        d1.done = true) ∧
    (m.member ≠ G_VFS_DBUS_ENUMERATOR_GOT_INFO →
        g_daemon_file_enumerator_dbus_filter gfi fuel d m = some d) ∧
    (∀ b : List σ, b.length < fuel →
        g_daemon_file_enumerator_dbus_filter gfi fuel d (got_info_message b)
          = some { d with infos := d.infos ++ b.filterMap parse }) := by
  refine ⟨?_, ?_, ?_⟩
  · intro d1 h
    unfold g_daemon_file_enumerator_dbus_filter at h
    split_ifs at h
    · cases h; rfl
    · cases hc : dbus_filter_collect gfi fuel m with
      | none => simp [hc] at h
      | some l =>
        simp only [hc, Option.some.injEq] at h
        rw [← h]
        exact hd
    · cases h; exact hd
  · intro hm
    unfold g_daemon_file_enumerator_dbus_filter
    split
    · cases d; simp_all
    · simp [hm]
  · intro b hb
    exact dbus_filter_got_info gfi parse hg fuel d b hb

/-- Witness for the amended C3: with `done` set and `z` pending, `GOT_INFO [a]` yields
the pending list `z, a`. -/
theorem dbus_filter_when_done_witness :
    g_daemon_file_enumerator_dbus_filter (dbus_get_file_info (fun s : String => some s)) 2
        { id := 1, infos := ["z"], done := true } (got_info_message ["a"])
      = some { id := 1, infos := ["z", "a"], done := true } :=
  (dbus_filter_when_done (dbus_get_file_info (fun s : String => some s))
    (fun s => some s) (fun _ _ => rfl) 2 { id := 1, infos := ["z"], done := true }
    done_message rfl).2.2 ["a"] (by decide)

/-! ## Theorems: SFTP framing -/

theorem put_bytes_data (p : List Byte) :
    ∀ ds : GDataOutputStream,
      (p.foldl g_data_output_stream_put_byte ds).data = ds.data ++ p := by
  induction p with
  | nil => intro ds; simp
  | cons b bs ih =>
    intro ds
    simp [List.foldl_cons, ih, g_data_output_stream_put_byte]

theorem GUINT32_TO_BE_val (n : Nat) (hn : n < 2 ^ 32) :
    (GUINT32_TO_BE n).map Fin.val
      = [n / 2 ^ 24 % 256, n / 2 ^ 16 % 256, n / 2 ^ 8 % 256, n % 256] := by
  have h : n % 2 ^ 32 = n := Nat.mod_eq_of_lt hn
  simp only [GUINT32_TO_BE, byte_of, h, List.map]

theorem GUINT32_FROM_BE_TO_BE (n : Nat) (hn : n < 2 ^ 32) (rest : List Byte) :
    GUINT32_FROM_BE (GUINT32_TO_BE n ++ rest) = n := by
  simp only [GUINT32_FROM_BE, GUINT32_TO_BE, byte_of, Nat.mod_eq_of_lt hn,
    List.cons_append, List.nil_append, List.take_succ_cons, List.take_zero,
    List.foldl_cons, List.foldl_nil]
  omega

theorem send_command_emits (out : GOutputStream) (p : List Byte)
    (hout : out.broken = false) (hp : p.length < 2 ^ 32) :
    send_command out (p.foldl g_data_output_stream_put_byte new_command_stream)
      = (true, { out with written := out.written ++ (GUINT32_TO_BE p.length ++ p) }) := by
  have hdata : (p.foldl g_data_output_stream_put_byte new_command_stream).data
      = GUINT32_TO_BE 0 ++ p := by
    rw [put_bytes_data]
    rfl
  have hlen : (GUINT32_TO_BE 0 ++ p).length = p.length + 4 := by
    simp [GUINT32_TO_BE]
  have harith : (p.length + 4 + 2 ^ 32 - 4) % 2 ^ 32 = p.length := by
    have : p.length + 4 + 2 ^ 32 - 4 = p.length + 2 ^ 32 := by omega
    rw [this, Nat.add_mod_right, Nat.mod_eq_of_lt hp]
  have hdrop : (GUINT32_TO_BE 0 ++ p).drop 4 = p := by
    simp [GUINT32_TO_BE]
  have htake : (GUINT32_TO_BE p.length ++ p).take (p.length + 4)
      = GUINT32_TO_BE p.length ++ p := by
    apply List.take_of_length_le
    simp [GUINT32_TO_BE]
  simp only [send_command, hdata, hlen, harith, hdrop, htake, g_output_stream_write_all,
    hout]
  simp

/-- C4. For every payload `p` of fewer than `2^32` bytes put on a stream obtained from
`new_command_stream`, `send_command` on a working output stream succeeds and emits the
four bytes `|p| / 2^24 % 256, |p| / 2^16 % 256, |p| / 2^8 % 256, |p| % 256` (the length
of the buffer minus the four reserved bytes, big-endian) followed by the bytes of `p`;
the `INIT` request of `do_mount` is emitted as `00 00 00 05 01 00 00 00 03`. -/
theorem send_command_frames_payload (out : GOutputStream) (p : List Byte)
    (hout : out.broken = false) (hp : p.length < 2 ^ 32) :
    send_command out (p.foldl g_data_output_stream_put_byte new_command_stream)
        = (true, { out with written := out.written ++ (GUINT32_TO_BE p.length ++ p) }) ∧
    (GUINT32_TO_BE p.length).map Fin.val
        = [p.length / 2 ^ 24 % 256, p.length / 2 ^ 16 % 256, p.length / 2 ^ 8 % 256,
            p.length % 256] ∧
    ((p.foldl g_data_output_stream_put_byte new_command_stream).data.length - 4
        = p.length) ∧
    do_mount_send_init out
        = (true, { out with written := out.written ++ [0, 0, 0, 5, 1, 0, 0, 0, 3] }) := by
  refine ⟨send_command_emits out p hout hp, GUINT32_TO_BE_val p.length hp, ?_, ?_⟩
  · rw [put_bytes_data]
    simp [new_command_stream, g_data_output_stream_put_int32, GUINT32_TO_BE]
  · have h := send_command_emits out [byte_of SSH_FXP_INIT, 0, 0, 0, 3] hout (by decide)
    exact h

/-- Witness for C4: the payload `01 00 00 00 03` on a fresh stream to descriptor 4 is
emitted as `00 00 00 05 01 00 00 00 03`. -/
theorem send_command_frames_payload_witness :
    send_command (g_socket_output_stream_new 4 true)
        ([1, 0, 0, 0, 3].foldl g_data_output_stream_put_byte new_command_stream)
      = (true, { fd := 4, written := [0, 0, 0, 5, 1, 0, 0, 0, 3], broken := false }) :=
  (send_command_frames_payload (g_socket_output_stream_new 4 true) [1, 0, 0, 0, 3] rfl
    (by decide)).1

theorem read_all_exact (fd : Int) (a b : List Byte) (e : Option GError) (n : Nat)
    (h : a.length = n) :
    g_input_stream_read_all { fd := fd, data := a ++ b, error_at_end := e } n
      = (true, a, none, { fd := fd, data := b, error_at_end := e }) := by
  subst h
  simp [g_input_stream_read_all]

/-- The data part of the frame round trip holds: on a reply stream that holds the frame
of `p` followed by `rest`, `read_reply_sync` consumes the prefix and the payload, leaves
`rest`, and returns an array whose buffer holds `p`; the `len` field of that array is 0,
not `|p|`. -/
theorem read_reply_sync_frame (backend : GVfsBackendSftp) (fd : Int) (p rest : List Byte)
    (e : Option GError) (len_mem : List Byte) (hp : p.length < 2 ^ 32) :
    read_reply_sync
        { backend with
          reply_stream := some ⟨fd, GUINT32_TO_BE p.length ++ p ++ rest, e⟩ }
        len_mem
      = (some { data := p, len := 0 }, none,
          { backend with reply_stream := some ⟨fd, rest, e⟩ }) := by
  have h4 : (GUINT32_TO_BE p.length).length = 4 := rfl
  have hfrom : GUINT32_FROM_BE (GUINT32_TO_BE p.length
      ++ List.drop (GUINT32_TO_BE p.length).length len_mem) = p.length :=
    GUINT32_FROM_BE_TO_BE p.length hp _
  simp only [read_reply_sync, List.append_assoc]
  rw [read_all_exact fd (GUINT32_TO_BE p.length) (p ++ rest) e 4 h4]
  simp only [hfrom]
  rw [read_all_exact fd p rest e p.length rfl]
  simp [g_byte_array_sized_new]

/-- C5, evaluated where it fails: the reply stream holds the frame
`00 00 00 05 02 00 00 00 03` (what `send_command` emits for the payload
`02 00 00 00 03`) followed by the byte `aa`.  `read_reply_sync` consumes the nine bytes
of the frame and leaves `aa`, the payload is in the buffer of the returned array, but the
`len` field of the array is 0 and not 5. -/
theorem read_reply_sync_returns_len_zero :
    send_command (g_socket_output_stream_new 4 true)
        ([2, 0, 0, 0, 3].foldl g_data_output_stream_put_byte new_command_stream)
      = (true, { fd := 4, written := [0, 0, 0, 5, 2, 0, 0, 0, 3], broken := false }) ∧
    read_reply_sync
        { client_vendor := SFTPClientVendor.SFTP_VENDOR_OPENSSH, host := some "h",
          user_specified := true, user := some "u", command_stream := none,
          reply_stream := some { fd := 5, data := [0, 0, 0, 5, 2, 0, 0, 0, 3, 0xaa],
                                 error_at_end := none },
          mount_spec := none }
        [0, 0, 0, 0]
      = (some { data := [2, 0, 0, 0, 3], len := 0 }, none,
          { client_vendor := SFTPClientVendor.SFTP_VENDOR_OPENSSH, host := some "h",
            user_specified := true, user := some "u", command_stream := none,
            reply_stream := some { fd := 5, data := [0xaa], error_at_end := none },
            mount_spec := none }) ∧
    ({ data := [2, 0, 0, 0, 3], len := 0 } : GByteArray).len ≠ [2, 0, 0, 0, 3].length := by
  refine ⟨?_, ?_, ?_⟩
  · exact send_command_emits _ [2, 0, 0, 0, 3] rfl (by decide)
  · rfl
  · decide

/-! ## Theorems: job variants -/

/-- C6. For a mount job with a request, and with the session bus available:
`send_reply` of a succeeded job sends nothing and calls `register_mount`; when the
registration completes with a reply, one empty method return to the request is sent,
`finished` is emitted once and the backend is not closed; when the registration fails
with an error, and when the job itself has failed with an error, one error reply to the
request carrying that error is sent, `finished` is emitted once and `job_source_closed`
is signalled. -/
theorem mount_job_reply_contract (conn : DBusConnection) (request : DBusRequest)
    (op_job : GVfsJobMount) (mount_reply : DBusRequest) (reg_error : Option GError)
    (job_error : GError) :
    JobMount.send_reply (some conn)
        { op_job with request := some request, parent := ⟨JobOutcome.succeeded⟩ }
      = [MountJobEffect.g_vfs_backend_register_mount] ∧
    JobMount.register_mount_callback (some conn) (some mount_reply) reg_error
        { op_job with request := some request, parent := ⟨JobOutcome.succeeded⟩ }
      = [MountJobEffect.dbus_connection_send conn (DBusReply.new_method_return request),
          MountJobEffect.g_vfs_job_emit_finished] ∧
    JobMount.register_mount_callback (some conn) none reg_error
        { op_job with request := some request, parent := ⟨JobOutcome.succeeded⟩ }
      = [MountJobEffect.dbus_connection_send conn
            (DBusReply.new_from_gerror request reg_error),
          MountJobEffect.g_vfs_job_emit_finished,
          MountJobEffect.g_vfs_job_source_closed] ∧
    JobMount.send_reply (some conn)
        { op_job with request := some request, parent := ⟨JobOutcome.failed job_error⟩ }
      = [MountJobEffect.dbus_connection_send conn
            (DBusReply.new_from_gerror request (some job_error)),
          MountJobEffect.g_vfs_job_emit_finished,
          MountJobEffect.g_vfs_job_source_closed] := by
  refine ⟨rfl, rfl, rfl, rfl⟩

/-- C7. With neither the `try_` slot nor the blocking slot of the operation in the
capability table, `try` of the mount job and of the query-attributes job returns
`not_handled` and leaves backend and job as they are, and `run` fails the pending job
with `NOT_SUPPORTED` ("Operation not supported by backend") and leaves the backend as it
is, whatever the other slots hold.  The query-attributes job takes the slots
`query_writable_namespaces` / `try_query_writable_namespaces` when `namespaces` is set
and `query_settable_attributes` / `try_query_settable_attributes` otherwise: a handler in
the slot of its flag is the one that is called, in `run` and in `try`. -/
theorem dispatch_without_handler {β : Type} (cls : GVfsBackendClass β) (backend : β)
    (mount_job : GVfsJobMount) (query_job : GVfsJobQueryAttributes)
    (cb : β → GVfsJobQueryAttributes → String → β × GVfsJobQueryAttributes)
    (try_cb : β → GVfsJobQueryAttributes → String → Bool × β × GVfsJobQueryAttributes) :
    (JobMount.try_ { cls with try_mount := none, mount := none } backend mount_job
        = (false, backend, mount_job) ∧
      JobMount.run { cls with try_mount := none, mount := none } backend
          { mount_job with parent := ⟨JobOutcome.pending⟩ }
        = (backend,
            { mount_job with
              parent := ⟨JobOutcome.failed ⟨GIOErrorEnum.G_IO_ERROR_NOT_SUPPORTED,
                "Operation not supported by backend"⟩⟩ })) ∧
    (JobQueryAttributes.try_
          { cls with try_query_writable_namespaces := none,
                     query_writable_namespaces := none }
          backend { query_job with namespaces := true }
        = (false, backend, { query_job with namespaces := true }) ∧
      JobQueryAttributes.run
          { cls with try_query_writable_namespaces := none,
                     query_writable_namespaces := none }
          backend { query_job with namespaces := true, parent := ⟨JobOutcome.pending⟩ }
        = (backend,
            { query_job with
              namespaces := true,
              parent := ⟨JobOutcome.failed ⟨GIOErrorEnum.G_IO_ERROR_NOT_SUPPORTED,
                "Operation not supported by backend"⟩⟩ })) ∧
    (JobQueryAttributes.try_
          { cls with try_query_settable_attributes := none,
                     query_settable_attributes := none }
          backend { query_job with namespaces := false }
        = (false, backend, { query_job with namespaces := false }) ∧
      JobQueryAttributes.run
          { cls with try_query_settable_attributes := none,
                     query_settable_attributes := none }
          backend { query_job with namespaces := false, parent := ⟨JobOutcome.pending⟩ }
        = (backend,
            { query_job with
              namespaces := false,
              parent := ⟨JobOutcome.failed ⟨GIOErrorEnum.G_IO_ERROR_NOT_SUPPORTED,
                "Operation not supported by backend"⟩⟩ })) ∧
    (JobQueryAttributes.run { cls with query_writable_namespaces := some cb } backend
          { query_job with namespaces := true }
        = cb backend { query_job with namespaces := true } query_job.filename ∧
      JobQueryAttributes.try_ { cls with try_query_writable_namespaces := some try_cb }
          backend { query_job with namespaces := true }
        = try_cb backend { query_job with namespaces := true } query_job.filename) ∧
    (JobQueryAttributes.run { cls with query_settable_attributes := some cb } backend
          { query_job with namespaces := false }
        = cb backend { query_job with namespaces := false } query_job.filename ∧
      JobQueryAttributes.try_ { cls with try_query_settable_attributes := some try_cb }
          backend { query_job with namespaces := false }
        = try_cb backend { query_job with namespaces := false } query_job.filename) := by
  refine ⟨⟨rfl, rfl⟩, ⟨rfl, rfl⟩, ⟨rfl, rfl⟩, ⟨rfl, rfl⟩, ⟨rfl, rfl⟩⟩

/-! ## Theorems: SFTP backend -/

/-- C8, evaluated where it fails: a query-attributes job without the `namespaces` flag,
dispatched to the capability table of the SFTP backend, has `try` return `handled` with
the job still pending, and each of the blocking handlers `open_for_read`, `read`,
`seek_on_read`, `create`, `append_to`, `replace`, `write`, `seek_on_write`,
`close_write`, `get_info`, `get_fs_info`, `enumerate`, `set_display_name`, `delete`,
`make_directory` and `move` that the table holds returns with the job still pending. -/
theorem sftp_handlers_leave_job_pending (w : SftpWorld) (filename attributes : String)
    (list : Option (List String)) (handle : GVfsBackendHandle) (buffer : List Byte)
    (n flags : Nat) (offset : Int) (type : GSeekType) (make_backup : Bool) :
    JobQueryAttributes.try_ g_vfs_backend_sftp_class_init w
        { parent := ⟨JobOutcome.pending⟩, filename := filename, namespaces := false,
          list := list }
      = (true, w,
          { parent := ⟨JobOutcome.pending⟩, filename := filename, namespaces := false,
            list := list }) ∧
    g_vfs_backend_sftp_class_init.open_for_read.map
        (fun h => (h w ⟨JobOutcome.pending⟩ filename).2.terminal) = some false ∧
    g_vfs_backend_sftp_class_init.read.map
        (fun h => (h w ⟨JobOutcome.pending⟩ handle buffer n).2.terminal) = some false ∧
    g_vfs_backend_sftp_class_init.seek_on_read.map
        (fun h => (h w ⟨JobOutcome.pending⟩ handle offset type).2.terminal) = some false ∧
    g_vfs_backend_sftp_class_init.create.map
        (fun h => (h w ⟨JobOutcome.pending⟩ filename).2.terminal) = some false ∧
    g_vfs_backend_sftp_class_init.append_to.map
        (fun h => (h w ⟨JobOutcome.pending⟩ filename).2.terminal) = some false ∧
    g_vfs_backend_sftp_class_init.replace.map
        (fun h => (h w ⟨JobOutcome.pending⟩ filename offset make_backup).2.terminal)
      = some false ∧
    g_vfs_backend_sftp_class_init.write.map
        (fun h => (h w ⟨JobOutcome.pending⟩ handle buffer n).2.terminal) = some false ∧
    g_vfs_backend_sftp_class_init.seek_on_write.map
        (fun h => (h w ⟨JobOutcome.pending⟩ handle offset type).2.terminal) = some false ∧
    g_vfs_backend_sftp_class_init.close_write.map
        (fun h => (h w ⟨JobOutcome.pending⟩ handle).2.terminal) = some false ∧
    g_vfs_backend_sftp_class_init.get_info.map
        (fun h => (h w ⟨JobOutcome.pending⟩ filename attributes flags).2.terminal)
      = some false ∧
    g_vfs_backend_sftp_class_init.get_fs_info.map
        (fun h => (h w ⟨JobOutcome.pending⟩ filename attributes).2.terminal)
      = some false ∧
    g_vfs_backend_sftp_class_init.enumerate.map
        (fun h => (h w ⟨JobOutcome.pending⟩ filename attributes flags).2.terminal)
      = some false ∧
    g_vfs_backend_sftp_class_init.set_display_name.map
        (fun h => (h w ⟨JobOutcome.pending⟩ filename attributes).2.terminal)
      = some false ∧
    g_vfs_backend_sftp_class_init.delete.map
        (fun h => (h w ⟨JobOutcome.pending⟩ filename).2.terminal) = some false ∧
    g_vfs_backend_sftp_class_init.make_directory.map
        (fun h => (h w ⟨JobOutcome.pending⟩ filename).2.terminal) = some false ∧
    g_vfs_backend_sftp_class_init.move.map
        (fun h => (h w ⟨JobOutcome.pending⟩ filename attributes flags).2.terminal)
      = some false := by
  refine ⟨rfl, rfl, rfl, rfl, rfl, rfl, rfl, rfl, rfl, rfl, rfl, rfl, rfl, rfl, rfl, rfl,
    rfl⟩

theorem strstr_iff (needle : List Char) :
    ∀ haystack : List Char,
      strstr haystack needle = true ↔ ∃ pre post, haystack = pre ++ needle ++ post := by
  intro haystack
  induction haystack with
  | nil =>
    simp only [strstr, List.isEmpty_iff]
    constructor
    · intro h; exact ⟨[], [], by simp [h]⟩
    · rintro ⟨pre, post, h⟩
      have hl := congrArg List.length h
      simp only [List.length_nil, List.length_append] at hl
      exact List.length_eq_zero.1 (by omega)
  | cons c cs ih =>
    simp only [strstr, Bool.or_eq_true, ih]
    constructor
    · rintro (h | ⟨pre, post, h⟩)
      · obtain ⟨t, ht⟩ := ( List.isPrefixOf_iff_prefix).1 h
        exact ⟨[], t, by simp [ht]⟩
      · exact ⟨c :: pre, post, by simp [h]⟩
    · rintro ⟨pre, post, h⟩
      cases pre with
      | nil =>
        left
        exact ( List.isPrefixOf_iff_prefix).2 ⟨post, by simpa using h.symm⟩
      | cons p ps =>
        right
        simp only [List.cons_append, List.cons.injEq] at h
        exact ⟨ps, post, h.2⟩

theorem strstr_contains (text marker : String) :
    strstr text.data marker.data = true ↔ contains_text text marker :=
  strstr_iff marker.data text.data

theorem vendor_of_flags (b1 b2 b3 : Bool) (P1 P2 P3 : Prop) (h1 : b1 = true ↔ P1)
    (h2 : b2 = true ↔ P2) (h3 : b3 = true ↔ P3) :
    ((if b1 || b2 then SFTPClientVendor.SFTP_VENDOR_OPENSSH
        else if b3 then SFTPClientVendor.SFTP_VENDOR_SSH
        else SFTPClientVendor.SFTP_VENDOR_INVALID) = SFTPClientVendor.SFTP_VENDOR_OPENSSH ↔
      (P1 ∨ P2)) ∧
    ((if b1 || b2 then SFTPClientVendor.SFTP_VENDOR_OPENSSH
        else if b3 then SFTPClientVendor.SFTP_VENDOR_SSH
        else SFTPClientVendor.SFTP_VENDOR_INVALID) = SFTPClientVendor.SFTP_VENDOR_SSH ↔
      (P3 ∧ ¬ P1 ∧ ¬ P2)) ∧
    ((if b1 || b2 then SFTPClientVendor.SFTP_VENDOR_OPENSSH
        else if b3 then SFTPClientVendor.SFTP_VENDOR_SSH
        else SFTPClientVendor.SFTP_VENDOR_INVALID) = SFTPClientVendor.SFTP_VENDOR_INVALID ↔
      ¬ (P1 ∨ P2 ∨ P3)) := by
  rw [← h1, ← h2, ← h3]
  cases b1 <;> cases b2 <;> cases b3 <;> simp

/-- C9. `get_sftp_client_vendor` is determined by whether `ssh -V` could be spawned and
by its captured stderr text: the result is the openssh flavor exactly when the spawn
succeeded and the text contains "OpenSSH" or "Sun_SSH" (whatever else it contains); it is
the legacy ssh flavor exactly when the spawn succeeded and the text contains "SSH Secure
Shell" but neither "OpenSSH" nor "Sun_SSH"; it is the invalid vendor exactly in every
other case (spawn failed, no stderr captured, no marker in the text). -/
theorem get_sftp_client_vendor_spec (ssh_V : Option (Option String)) :
    (get_sftp_client_vendor ssh_V = SFTPClientVendor.SFTP_VENDOR_OPENSSH ↔
      ∃ text, ssh_V = some (some text) ∧
        (contains_text text "OpenSSH" ∨ contains_text text "Sun_SSH")) ∧
    (get_sftp_client_vendor ssh_V = SFTPClientVendor.SFTP_VENDOR_SSH ↔
      ∃ text, ssh_V = some (some text) ∧ contains_text text "SSH Secure Shell" ∧
        ¬ contains_text text "OpenSSH" ∧ ¬ contains_text text "Sun_SSH") ∧
    (get_sftp_client_vendor ssh_V = SFTPClientVendor.SFTP_VENDOR_INVALID ↔
      ¬ ∃ text, ssh_V = some (some text) ∧
        (contains_text text "OpenSSH" ∨ contains_text text "Sun_SSH" ∨
          contains_text text "SSH Secure Shell")) := by
  rcases ssh_V with _ | _ | text
  · simp [get_sftp_client_vendor]
  · simp [get_sftp_client_vendor]
  · have key := vendor_of_flags (strstr text.data "OpenSSH".data)
      (strstr text.data "Sun_SSH".data) (strstr text.data "SSH Secure Shell".data) _ _ _
      (strstr_contains text "OpenSSH") (strstr_contains text "Sun_SSH")
      (strstr_contains text "SSH Secure Shell")
    have hv : get_sftp_client_vendor (some (some text))
        = (if strstr text.data "OpenSSH".data || strstr text.data "Sun_SSH".data then
            SFTPClientVendor.SFTP_VENDOR_OPENSSH
          else if strstr text.data "SSH Secure Shell".data then
            SFTPClientVendor.SFTP_VENDOR_SSH
          else SFTPClientVendor.SFTP_VENDOR_INVALID) := rfl
    rw [hv]
    simp only [Option.some.injEq, exists_eq_left']
    exact key

/-- C10, as the spec states it, fails: with no ssh in the path, `try_mount` for the spec
`{type: sftp, host: h, user: u}` fails the job with the kind `FAILED`, which is not
`NOT_SUPPORTED`. -/
theorem try_mount_without_ssh_fails_with_failed :
    (try_mount (new_sftp_world no_ssh_env)
        { parent := ⟨JobOutcome.pending⟩,
          mount_spec := ⟨[("type", "sftp"), ("host", "h"), ("user", "u")]⟩,
          mount_source := ⟨0⟩, is_automount := false, request := some ⟨1⟩ }
        ⟨[("type", "sftp"), ("host", "h"), ("user", "u")]⟩ ⟨0⟩ false).2.2.parent.outcome
      = JobOutcome.failed ⟨GIOErrorEnum.G_IO_ERROR_FAILED,
          "Unable to find supported ssh command"⟩ ∧
    GIOErrorEnum.G_IO_ERROR_FAILED ≠ GIOErrorEnum.G_IO_ERROR_NOT_SUPPORTED := by
  constructor
  · rfl
  · decide

/-- C10, amended. For every mount request on a pending job, when vendor detection yields
the invalid vendor, `try_mount` fails the job with the kind `FAILED` and the message
"Unable to find supported ssh command", returns `handled`, and changes nothing in the
backend but the recorded vendor; dispatching the job through the capability table of the
SFTP backend then ends with this failure, `do_mount` is not run and nothing is
spawned. -/
theorem try_mount_without_supported_ssh (w : SftpWorld) (job : GVfsJobMount)
    (mount_spec : GMountSpec) (mount_source : GMountSource) (is_automount : Bool)
    (hv : get_sftp_client_vendor w.os.ssh_V = SFTPClientVendor.SFTP_VENDOR_INVALID) :
    try_mount w { job with parent := ⟨JobOutcome.pending⟩ } mount_spec mount_source
        is_automount
      = (true,
          { w with
            backend :=
              { w.backend with client_vendor := SFTPClientVendor.SFTP_VENDOR_INVALID } },
          { job with
            parent := ⟨JobOutcome.failed ⟨GIOErrorEnum.G_IO_ERROR_FAILED,
              "Unable to find supported ssh command"⟩⟩ }) ∧
    (dispatch_mount_job g_vfs_backend_sftp_class_init w
        { job with parent := ⟨JobOutcome.pending⟩ }).2
      = { job with
          parent := ⟨JobOutcome.failed ⟨GIOErrorEnum.G_IO_ERROR_FAILED,
            "Unable to find supported ssh command"⟩⟩ } ∧
    (dispatch_mount_job g_vfs_backend_sftp_class_init w
        { job with parent := ⟨JobOutcome.pending⟩ }).1.spawned = w.spawned := by
  have h : ∀ ms src auto,
      try_mount w { job with parent := ⟨JobOutcome.pending⟩ } ms src auto
        = (true,
            { w with
              backend :=
                { w.backend with
                  client_vendor := SFTPClientVendor.SFTP_VENDOR_INVALID } },
            { job with
              parent := ⟨JobOutcome.failed ⟨GIOErrorEnum.G_IO_ERROR_FAILED,
                "Unable to find supported ssh command"⟩⟩ }) := by
    intro ms src auto
    simp [try_mount, hv, g_vfs_job_failed]
  refine ⟨h _ _ _, ?_, ?_⟩
  · simp [dispatch_mount_job, JobMount.try_, g_vfs_backend_sftp_class_init, h]
  · simp [dispatch_mount_job, JobMount.try_, g_vfs_backend_sftp_class_init, h]

/-- Witness for the amended C10: a fresh backend in a world without ssh, and the spec
`{type: sftp, host: h, user: u}`. -/
theorem try_mount_without_supported_ssh_witness :
    (dispatch_mount_job g_vfs_backend_sftp_class_init (new_sftp_world no_ssh_env)
        { parent := ⟨JobOutcome.pending⟩,
          mount_spec := ⟨[("type", "sftp"), ("host", "h"), ("user", "u")]⟩,
          mount_source := ⟨0⟩, is_automount := false, request := some ⟨1⟩ }).2
      = { parent := ⟨JobOutcome.failed ⟨GIOErrorEnum.G_IO_ERROR_FAILED,
            "Unable to find supported ssh command"⟩⟩,
          mount_spec := ⟨[("type", "sftp"), ("host", "h"), ("user", "u")]⟩,
          mount_source := ⟨0⟩, is_automount := false, request := some ⟨1⟩ } :=
  (try_mount_without_supported_ssh (new_sftp_world no_ssh_env)
    { parent := ⟨JobOutcome.pending⟩,
      mount_spec := ⟨[("type", "sftp"), ("host", "h"), ("user", "u")]⟩,
      mount_source := ⟨0⟩, is_automount := false, request := some ⟨1⟩ }
    ⟨[("type", "sftp"), ("host", "h"), ("user", "u")]⟩ ⟨0⟩ false rfl).2.1

/-! ## Theorems: SFTP mount -/

/-- C11. With a supported ssh client detected: for a mount spec without `host`,
`try_mount` fails the pending job with `INVALID_ARGUMENT` ("Invalid mount spec"), returns
`handled`, and changes nothing in the backend but the recorded vendor, so host and user
stay as they were (unset on a fresh backend); for a mount spec with `host`, `try_mount`
returns `not_handled`, leaves the job as it was, and records that host. -/
theorem try_mount_checks_host (w : SftpWorld) (job : GVfsJobMount)
    (mount_spec : GMountSpec) (mount_source : GMountSource) (is_automount : Bool)
    (hv : get_sftp_client_vendor w.os.ssh_V ≠ SFTPClientVendor.SFTP_VENDOR_INVALID) :
    (g_mount_spec_get mount_spec "host" = none →
      try_mount w { job with parent := ⟨JobOutcome.pending⟩ } mount_spec mount_source
          is_automount
        = (true,
            { w with
              backend :=
                { w.backend with client_vendor := get_sftp_client_vendor w.os.ssh_V } },
            { job with
              parent := ⟨JobOutcome.failed ⟨GIOErrorEnum.G_IO_ERROR_INVALID_ARGUMENT,
                "Invalid mount spec"⟩⟩ })) ∧
    (∀ host, g_mount_spec_get mount_spec "host" = some host →
      (try_mount w job mount_spec mount_source is_automount).1 = false ∧
      (try_mount w job mount_spec mount_source is_automount).2.2 = job ∧
      (try_mount w job mount_spec mount_source is_automount).2.1.backend.host
        = some host) := by
  constructor
  · intro hh
    simp [try_mount, hv, hh, g_vfs_job_failed]
  · intro host hh
    simp [try_mount, hv, hh]
    split <;> rfl

/-- Witness for C11: on a fresh backend with an OpenSSH client, the spec `{type: sftp}`
fails the job with `INVALID_ARGUMENT` and leaves host and user unset. -/
theorem try_mount_checks_host_witness :
    try_mount (new_sftp_world openssh_pty_env)
        { sftp_mount_request with parent := ⟨JobOutcome.pending⟩ }
        ⟨[("type", "sftp")]⟩ ⟨0⟩ false
      = (true,
          { new_sftp_world openssh_pty_env with
            backend :=
              { (new_sftp_world openssh_pty_env).backend with
                client_vendor := get_sftp_client_vendor openssh_pty_env.ssh_V } },
          { sftp_mount_request with
            parent := ⟨JobOutcome.failed ⟨GIOErrorEnum.G_IO_ERROR_INVALID_ARGUMENT,
              "Invalid mount spec"⟩⟩ }) :=
  (try_mount_checks_host (new_sftp_world openssh_pty_env) sftp_mount_request
    ⟨[("type", "sftp")]⟩ ⟨0⟩ false (by decide)).1 rfl

/-- C18, as the spec states it, fails: for the openssh flavor, user `u` and host `h`,
built with pty support, the options are spelled with a blank, not with `=`. -/
theorem setup_ssh_commandline_openssh_spelling :
    strv (setup_ssh_commandline true
        { g_vfs_backend_sftp_init with
          client_vendor := SFTPClientVendor.SFTP_VENDOR_OPENSSH,
          user := some "u", host := some "h" }).1
      = ["ssh", "-oForwardX11 no", "-oForwardAgent no", "-oClearAllForwardings yes",
          "-oProtocol 2", "-oNoHostAuthenticationForLocalhost yes", "-l", "u", "-s", "h",
          "sftp"] ∧
    strv (setup_ssh_commandline true
        { g_vfs_backend_sftp_init with
          client_vendor := SFTPClientVendor.SFTP_VENDOR_OPENSSH,
          user := some "u", host := some "h" }).1
      ≠ ["ssh", "-oForwardX11=no", "-oForwardAgent=no", "-oClearAllForwardings=yes",
          "-oProtocol=2", "-oNoHostAuthenticationForLocalhost=yes", "-l", "u", "-s", "h",
          "sftp"] := by
  constructor
  · rfl
  · decide

/-- C18, amended. For the openssh flavor and every user `u` and host `h`,
`setup_ssh_commandline` returns exactly the argument vector `ssh`, `-oForwardX11 no`,
`-oForwardAgent no`, `-oClearAllForwardings yes`, `-oProtocol 2`,
`-oNoHostAuthenticationForLocalhost yes`, (`-oBatchMode yes` exactly when built without
pty support), `-l`, `u`, `-s`, `h`, `sftp`, each item one element, in this order. -/
theorem setup_ssh_commandline_openssh (use_pty : Bool) (backend : GVfsBackendSftp)
    (u h : String) :
    strv (setup_ssh_commandline use_pty
        { backend with
          client_vendor := SFTPClientVendor.SFTP_VENDOR_OPENSSH,
          user := some u, host := some h }).1
      = [SSH_PROGRAM, "-oForwardX11 no", "-oForwardAgent no", "-oClearAllForwardings yes",
          "-oProtocol 2", "-oNoHostAuthenticationForLocalhost yes"]
        ++ (if use_pty then [] else ["-oBatchMode yes"])
        ++ ["-l", u, "-s", h, "sftp"] := by
  cases use_pty <;> rfl

/-- C19. For the legacy flavor and every user `u` and host `h`, `setup_ssh_commandline`
returns exactly the argument vector `ssh`, `-x`, `-l`, `u`, `-s`, `sftp`, `h`, with or
without pty support: the subsystem name precedes the host, and no `-o` option is
present.  In the array these are the slots 0 to 6, and the slots 7 to 19 are `NULL`. -/
theorem setup_ssh_commandline_legacy (use_pty : Bool) (backend : GVfsBackendSftp)
    (u h : String) :
    strv (setup_ssh_commandline use_pty
        { backend with
          client_vendor := SFTPClientVendor.SFTP_VENDOR_SSH,
          user := some u, host := some h }).1
      = [SSH_PROGRAM, "-x", "-l", u, "-s", "sftp", h] ∧
    (setup_ssh_commandline use_pty
        { backend with
          client_vendor := SFTPClientVendor.SFTP_VENDOR_SSH,
          user := some u, host := some h }).1
      = [some SSH_PROGRAM, some "-x", some "-l", some u, some "-s", some "sftp", some h]
        ++ List.replicate 13 none := by
  constructor
  · rfl
  · rfl

/-! ## Theorems: SFTP login -/

theorem g_str_has_suffix_iff (str suffix : String) :
    g_str_has_suffix str suffix = true ↔ ∃ pre : List Char, str.data = pre ++ suffix.data := by
  unfold g_str_has_suffix
  rw [List.isSuffixOf_iff_suffix]
  constructor
  · rintro ⟨t, ht⟩
    exact ⟨t, ht.symm⟩
  · rintro ⟨t, ht⟩
    exact ⟨t, ht.symm⟩

theorem g_str_starts_iff (str pfx : String) :
    g_str_has_prefix str pfx = true ↔ ∃ post : List Char, str.data = pfx.data ++ post := by
  unfold g_str_has_prefix
  rw [ List.isPrefixOf_iff_prefix]
  constructor
  · rintro ⟨t, ht⟩
    exact ⟨t, ht.symm⟩
  · rintro ⟨t, ht⟩
    exact ⟨t, ht.symm⟩

theorem handle_login_loop_skip (user : Option String) (buffer : String)
    (reply : AskPasswordReply) (rounds : List LoginEvent) (rs : GOutputStream)
    (asked : List AskPasswordQuery) (h : prompt_asks_password buffer = false) :
    handle_login_loop user (LoginEvent.prompt buffer reply :: rounds) rs asked
      = handle_login_loop user rounds rs asked := by
  unfold prompt_asks_password at h
  rw [handle_login_loop, h]
  rfl

theorem handle_login_loop_abort (user : Option String) (buffer : String)
    (reply : AskPasswordReply) (rounds : List LoginEvent) (rs : GOutputStream)
    (asked : List AskPasswordQuery) (h : prompt_asks_password buffer = true)
    (ha : (!reply.handled || reply.aborted) = true) :
    handle_login_loop user (LoginEvent.prompt buffer reply :: rounds) rs asked
      = { ret_val := false,
          error := some ⟨GIOErrorEnum.G_IO_ERROR_PERMISSION_DENIED,
            "Password dialog cancelled"⟩,
          reply_stream := some rs, asked := asked ++ [password_query user buffer] } := by
  unfold prompt_asks_password at h
  rw [handle_login_loop, h]
  simp only [if_true, ha]
  rfl

theorem handle_login_loop_answer (user : Option String) (buffer : String)
    (reply : AskPasswordReply) (rounds : List LoginEvent) (rs : GOutputStream)
    (asked : List AskPasswordQuery) (h : prompt_asks_password buffer = true)
    (ha : (!reply.handled || reply.aborted) = false) (hb : rs.broken = false) :
    handle_login_loop user (LoginEvent.prompt buffer reply :: rounds) rs asked
      = handle_login_loop user rounds
          { rs with written := rs.written ++ (string_bytes reply.new_password ++ [10]) }
          (asked ++ [password_query user buffer]) := by
  unfold prompt_asks_password at h
  have hnl : string_bytes "\n" = [10] := by decide
  rw [handle_login_loop, h]
  simp only [if_true, ha, g_output_stream_write_all, hb, hnl, Bool.not_true,
    Bool.false_eq_true, if_false, List.append_assoc]
  rfl

theorem handle_login_loop_cant_send (user : Option String) (buffer : String)
    (reply : AskPasswordReply) (rounds : List LoginEvent) (rs : GOutputStream)
    (asked : List AskPasswordQuery) (h : prompt_asks_password buffer = true)
    (ha : (!reply.handled || reply.aborted) = false) (hb : rs.broken = true) :
    handle_login_loop user (LoginEvent.prompt buffer reply :: rounds) rs asked
      = { ret_val := false,
          error := some ⟨GIOErrorEnum.G_IO_ERROR_PERMISSION_DENIED, "Can't send password"⟩,
          reply_stream := some rs, asked := asked ++ [password_query user buffer] } := by
  unfold prompt_asks_password at h
  rw [handle_login_loop, h]
  simp only [if_true, ha, g_output_stream_write_all, hb, Bool.not_false,
    Bool.false_eq_true, if_false]
  rfl

theorem handle_login_loop_asked (user : Option String) :
    ∀ (rounds : List LoginEvent) (rs : GOutputStream) (asked : List AskPasswordQuery),
      ∃ tail, (handle_login_loop user rounds rs asked).asked = asked ++ tail := by
  intro rounds
  induction rounds with
  | nil => intro rs asked; exact ⟨[], by simp [handle_login_loop]⟩
  | cons ev rounds ih =>
    intro rs asked
    cases ev with
    | timed_out => exact ⟨[], by simp [handle_login_loop]⟩
    | stdout_readable => exact ⟨[], by simp [handle_login_loop]⟩
    | prompt_read_failed e => exact ⟨[], by simp [handle_login_loop]⟩
    | prompt buffer reply =>
      cases h : prompt_asks_password buffer with
      | false =>
        rw [handle_login_loop_skip user buffer reply rounds rs asked h]
        exact ih rs asked
      | true =>
        cases ha : (!reply.handled || reply.aborted) with
        | true =>
          rw [handle_login_loop_abort user buffer reply rounds rs asked h ha]
          exact ⟨[password_query user buffer], rfl⟩
        | false =>
          cases hb : rs.broken with
          | true =>
            rw [handle_login_loop_cant_send user buffer reply rounds rs asked h ha hb]
            exact ⟨[password_query user buffer], rfl⟩
          | false =>
            rw [handle_login_loop_answer user buffer reply rounds rs asked h ha hb]
            obtain ⟨tail, ht⟩ := ih
              { rs with written := rs.written ++ (string_bytes reply.new_password ++ [10]) }
              (asked ++ [password_query user buffer])
            exact ⟨password_query user buffer :: tail, by rw [ht]; simp⟩

theorem do_mount_spawn_failure (w : SftpWorld) (job : GVfsJobMount)
    (mount_spec : GMountSpec) (mount_source : GMountSource) (is_automount : Bool)
    (e : GError)
    (hs : spawn_ssh w.os (setup_ssh_commandline w.os.use_pty w.backend).1 = Except.error e) :
    do_mount w job mount_spec mount_source is_automount
      = (w, { job with parent := g_vfs_job_failed_from_error job.parent e }) := by
  simp only [do_mount, hs]

theorem do_mount_login_failure (w : SftpWorld) (job : GVfsJobMount)
    (mount_spec : GMountSpec) (mount_source : GMountSource) (is_automount : Bool)
    (child : SshChild) (e : GError)
    (hs : spawn_ssh w.os (setup_ssh_commandline w.os.use_pty w.backend).1 = Except.ok child)
    (hr : (do_mount_login w mount_source child).ret_val = false)
    (he : (do_mount_login w mount_source child).error = some e) :
    (do_mount w { job with parent := ⟨JobOutcome.pending⟩ } mount_spec mount_source
        is_automount).2
      = { job with parent := ⟨JobOutcome.failed e⟩ } ∧
    (do_mount w { job with parent := ⟨JobOutcome.pending⟩ } mount_spec mount_source
        is_automount).1.backend = w.backend := by
  unfold do_mount_login at hr he
  simp only [do_mount, hs, hr, he, Bool.not_false, if_true]
  exact ⟨rfl, trivial⟩

/-- C12, as the spec states it, fails: the buffer `Please enter password:` ends with
`password:`, yet the loop does not turn to the credential source and writes nothing;
and the buffer `Please enter password: ` ends with none of `password:`, `Password:`,
`Password: ` and does not start with `Enter passphrase for key`, yet the credential
source is asked. -/
theorem handle_login_password_suffix_has_blank :
    g_str_has_suffix "Please enter password:" "password:" = true ∧
    handle_login_loop (some "u")
        [LoginEvent.prompt "Please enter password:" ⟨true, false, "secret"⟩,
          LoginEvent.stdout_readable]
        (g_socket_output_stream_new 3 false) []
      = { ret_val := true, error := none,
          reply_stream := some (g_socket_output_stream_new 3 false), asked := [] } ∧
    (g_str_has_suffix "Please enter password: " "password:" = false ∧
      g_str_has_suffix "Please enter password: " "Password:" = false ∧
      g_str_has_suffix "Please enter password: " "Password: " = false ∧
      g_str_has_prefix "Please enter password: " "Enter passphrase for key" = false) ∧
    (handle_login_loop (some "u")
        [LoginEvent.prompt "Please enter password: " ⟨true, false, "secret"⟩,
          LoginEvent.stdout_readable]
        (g_socket_output_stream_new 3 false) []).asked
      = [{ message := "Enter password", default_user := some "u" }] := by
  refine ⟨by decide, by rfl, ⟨by decide, by decide, by decide, by decide⟩, by rfl⟩

/-- C12, amended. For every prompt buffer read from the prompt descriptor, in every state
of the loop of `handle_login`: the condition of the loop holds exactly when the buffer
ends with `password: `, ends with `Password: `, ends with `Password:`, or starts with
`Enter passphrase for key`; when it holds, the credential source is asked in this round
(its query follows the queries made before); when it does not hold, no query is made,
nothing is written, and the loop goes on with the next round in the same state. -/
theorem handle_login_asks_iff (user : Option String) (buffer : String)
    (reply : AskPasswordReply) (rounds : List LoginEvent) (rs : GOutputStream)
    (asked : List AskPasswordQuery) :
    (prompt_asks_password buffer = true ↔
      ((∃ pre : List Char, buffer.data = pre ++ "password: ".data) ∨
        (∃ pre : List Char, buffer.data = pre ++ "Password: ".data) ∨
        (∃ pre : List Char, buffer.data = pre ++ "Password:".data) ∨
        (∃ post : List Char, buffer.data = "Enter passphrase for key".data ++ post))) ∧
    (prompt_asks_password buffer = true →
      ∃ tail,
        (handle_login_loop user (LoginEvent.prompt buffer reply :: rounds) rs asked).asked
          = asked ++ password_query user buffer :: tail) ∧
    (prompt_asks_password buffer = false →
      handle_login_loop user (LoginEvent.prompt buffer reply :: rounds) rs asked
        = handle_login_loop user rounds rs asked) := by
  refine ⟨?_, ?_, ?_⟩
  · unfold prompt_asks_password
    rw [Bool.or_eq_true, Bool.or_eq_true, Bool.or_eq_true, g_str_has_suffix_iff,
      g_str_has_suffix_iff, g_str_has_suffix_iff, g_str_starts_iff]
    tauto
  · intro h
    cases ha : (!reply.handled || reply.aborted) with
    | true =>
      rw [handle_login_loop_abort user buffer reply rounds rs asked h ha]
      exact ⟨[], rfl⟩
    | false =>
      cases hb : rs.broken with
      | true =>
        rw [handle_login_loop_cant_send user buffer reply rounds rs asked h ha hb]
        exact ⟨[], rfl⟩
      | false =>
        rw [handle_login_loop_answer user buffer reply rounds rs asked h ha hb]
        obtain ⟨tail, ht⟩ := handle_login_loop_asked user rounds
          { rs with written := rs.written ++ (string_bytes reply.new_password ++ [10]) }
          (asked ++ [password_query user buffer])
        exact ⟨tail, by rw [ht]; simp⟩
  · intro h
    exact handle_login_loop_skip user buffer reply rounds rs asked h

/-- Witness for the amended C12: a host-authenticity message is passed over, the loop
goes on to the next round (here: stdout readable), nothing asked, nothing written. -/
theorem handle_login_asks_iff_witness :
    handle_login_loop (some "u")
        [LoginEvent.prompt "The authenticity of host 'h' can't be established."
            ⟨true, false, "secret"⟩,
          LoginEvent.stdout_readable]
        (g_socket_output_stream_new 3 false) []
      = { ret_val := true, error := none,
          reply_stream := some (g_socket_output_stream_new 3 false), asked := [] } :=
  (handle_login_asks_iff (some "u") "The authenticity of host 'h' can't be established."
    ⟨true, false, "secret"⟩ [LoginEvent.stdout_readable]
    (g_socket_output_stream_new 3 false) []).2.2 (by decide)

theorem handle_login_loop_success (user : Option String) :
    ∀ (rounds : List LoginEvent) (rs : GOutputStream) (asked : List AskPasswordQuery),
      (handle_login_loop user rounds rs asked).ret_val = true →
      ∃ pre post, rounds = pre ++ LoginEvent.stdout_readable :: post ∧
        ∀ ev ∈ pre, ∃ buffer reply, ev = LoginEvent.prompt buffer reply := by
  intro rounds
  induction rounds with
  | nil => intro rs asked h; simp [handle_login_loop] at h
  | cons ev rounds ih =>
    intro rs asked h
    cases ev with
    | timed_out => simp [handle_login_loop] at h
    | stdout_readable => exact ⟨[], rounds, rfl, by simp⟩
    | prompt_read_failed e => simp [handle_login_loop] at h
    | prompt buffer reply =>
      have step : ∀ rs1 asked1,
          (handle_login_loop user rounds rs1 asked1).ret_val = true →
          ∃ pre post,
            LoginEvent.prompt buffer reply :: rounds
              = pre ++ LoginEvent.stdout_readable :: post ∧
            ∀ ev ∈ pre, ∃ b r, ev = LoginEvent.prompt b r := by
        intro rs1 asked1 h1
        obtain ⟨pre, post, hp, hall⟩ := ih rs1 asked1 h1
        refine ⟨LoginEvent.prompt buffer reply :: pre, post, by simp [hp], ?_⟩
        intro ev hev
        rcases List.mem_cons.1 hev with rfl | hev
        · exact ⟨buffer, reply, rfl⟩
        · exact hall ev hev
      cases hq : prompt_asks_password buffer with
      | false =>
        rw [handle_login_loop_skip user buffer reply rounds rs asked hq] at h
        exact step rs asked h
      | true =>
        cases ha : (!reply.handled || reply.aborted) with
        | true =>
          rw [handle_login_loop_abort user buffer reply rounds rs asked hq ha] at h
          simp at h
        | false =>
          cases hb : rs.broken with
          | true =>
            rw [handle_login_loop_cant_send user buffer reply rounds rs asked hq ha hb] at h
            simp at h
          | false =>
            rw [handle_login_loop_answer user buffer reply rounds rs asked hq ha hb] at h
            exact step _ _ h

/-- C14. Both login paths wait with a timeout of 20 seconds: `handle_login` and
`wait_for_reply` depend on the outside world only through what its waits yield under a
timeout of 20 seconds (and through whether the pty can be written).  Whenever a wait
ends with no descriptor ready, in every state of the loop of `handle_login` and in
`wait_for_reply`, the login fails with `TIMED_OUT` and the message "Timed out when
logging in", and whenever the login attempt of `do_mount` fails with this error,
`do_mount` fails the pending job with it.  The login reports success only when the
child's stdout was reported readable: in `handle_login` after rounds that were all
prompts, in `wait_for_reply` by its one `select`. -/
theorem login_waits_time_out (os os2 : SftpEnv) (backend : GVfsBackendSftp)
    (mount_source : GMountSource) (tty_fd stdout_fd stderr_fd : Int)
    (user : Option String) (rounds : List LoginEvent) (rs : GOutputStream)
    (asked : List AskPasswordQuery) :
    ((∀ fd, os.login fd 20 = os2.login fd 20) →
      (∀ fd, os.output_broken fd = os2.output_broken fd) →
      handle_login os backend mount_source tty_fd stdout_fd stderr_fd
        = handle_login os2 backend mount_source tty_fd stdout_fd stderr_fd) ∧
    (os.select_stdout stdout_fd 20 = os2.select_stdout stdout_fd 20 →
      wait_for_reply os stdout_fd = wait_for_reply os2 stdout_fd) ∧
    handle_login_loop user (LoginEvent.timed_out :: rounds) rs asked
      = { ret_val := false,
          error := some ⟨GIOErrorEnum.G_IO_ERROR_TIMED_OUT, "Timed out when logging in"⟩,
          reply_stream := some rs, asked := asked } ∧
    handle_login_loop user [] rs asked
      = { ret_val := false,
          error := some ⟨GIOErrorEnum.G_IO_ERROR_TIMED_OUT, "Timed out when logging in"⟩,
          reply_stream := some rs, asked := asked } ∧
    (os.select_stdout stdout_fd 20 = false →
      wait_for_reply os stdout_fd
        = { ret_val := false,
            error := some ⟨GIOErrorEnum.G_IO_ERROR_TIMED_OUT, "Timed out when logging in"⟩,
            reply_stream := none, asked := [] }) ∧
    (∀ (w : SftpWorld) (job : GVfsJobMount) (mount_spec : GMountSpec)
        (is_automount : Bool) (child : SshChild),
      spawn_ssh w.os (setup_ssh_commandline w.os.use_pty w.backend).1 = Except.ok child →
      (do_mount_login w mount_source child).ret_val = false →
      (do_mount_login w mount_source child).error
        = some ⟨GIOErrorEnum.G_IO_ERROR_TIMED_OUT, "Timed out when logging in"⟩ →
      (do_mount w { job with parent := ⟨JobOutcome.pending⟩ } mount_spec mount_source
          is_automount).2
        = { job with
            parent := ⟨JobOutcome.failed ⟨GIOErrorEnum.G_IO_ERROR_TIMED_OUT,
              "Timed out when logging in"⟩⟩ }) ∧
    ((handle_login_loop user rounds rs asked).ret_val = true →
      ∃ pre post, rounds = pre ++ LoginEvent.stdout_readable :: post ∧
        ∀ ev ∈ pre, ∃ buffer reply, ev = LoginEvent.prompt buffer reply) ∧
    ((wait_for_reply os stdout_fd).ret_val = true →
      os.select_stdout stdout_fd 20 = true) := by
  refine ⟨?_, ?_, rfl, rfl, ?_, ?_, ?_, ?_⟩
  · intro hl hb
    simp only [handle_login, hl, hb]
  · intro hsel
    simp only [wait_for_reply, hsel]
  · intro hsel
    simp [wait_for_reply, hsel]
  · intro w job mount_spec is_automount child hs hr he
    exact (do_mount_login_failure w job mount_spec mount_source is_automount child _ hs
      hr he).1
  · exact handle_login_loop_success user rounds rs asked
  · intro h
    by_contra hc
    simp [wait_for_reply, hc] at h

/-- Witness for C14: with an OpenSSH client and a pty, a child that never prompts and
whose stdout never becomes readable makes `do_mount` fail the job with `TIMED_OUT`. -/
theorem login_waits_time_out_witness :
    (do_mount (world_after_try_mount silent_pty_env) sftp_mount_request
        sftp_mount_request.mount_spec ⟨0⟩ false).2
      = { sftp_mount_request with
          parent := ⟨JobOutcome.failed ⟨GIOErrorEnum.G_IO_ERROR_TIMED_OUT,
            "Timed out when logging in"⟩⟩ } :=
  (login_waits_time_out silent_pty_env silent_pty_env g_vfs_backend_sftp_init ⟨0⟩ 3 5 6
    none [] (g_socket_output_stream_new 3 false) []).2.2.2.2.2.1
    (world_after_try_mount silent_pty_env) sftp_mount_request
    sftp_mount_request.mount_spec false ⟨100, 3, 4, 5, 6⟩ rfl rfl rfl

/-! ## Theorems: SFTP mount, the reply and the published state -/

theorem read_all_keeps_fd (stream : GInputStream) (count : Nat) :
    (g_input_stream_read_all stream count).2.2.2.fd = stream.fd ∧
    (g_input_stream_read_all stream count).2.2.2.error_at_end = stream.error_at_end := by
  unfold g_input_stream_read_all
  split
  · exact ⟨rfl, rfl⟩
  · split <;> simp_all

theorem read_all_eof (stream : GInputStream) (count : Nat)
    (h : stream.error_at_end = none) :
    (g_input_stream_read_all stream count).1 = true := by
  unfold g_input_stream_read_all
  split
  · rfl
  · simp [h]

theorem read_reply_sync_keeps (backend : GVfsBackendSftp) (len_mem : List Byte) :
    (read_reply_sync backend len_mem).2.2.reply_stream.map (fun s => s.fd)
        = backend.reply_stream.map (fun s => s.fd) ∧
    (read_reply_sync backend len_mem).2.2.command_stream = backend.command_stream ∧
    (read_reply_sync backend len_mem).2.2.host = backend.host ∧
    (read_reply_sync backend len_mem).2.2.user = backend.user ∧
    (read_reply_sync backend len_mem).2.2.user_specified = backend.user_specified ∧
    (read_reply_sync backend len_mem).2.2.client_vendor = backend.client_vendor := by
  unfold read_reply_sync
  cases hrs : backend.reply_stream with
  | none => simp [hrs]
  | some rs =>
    simp only
    have h1 := read_all_keeps_fd rs 4
    rcases hr1 : g_input_stream_read_all rs 4 with ⟨ok1, bytes1, e1, s1⟩
    rw [hr1] at h1
    simp only at h1
    cases ok1 with
    | false => simp [h1.1]
    | true =>
      simp only
      have h2 := read_all_keeps_fd s1
        (GUINT32_FROM_BE (bytes1 ++ List.drop bytes1.length len_mem))
      rcases hr2 : g_input_stream_read_all s1
        (GUINT32_FROM_BE (bytes1 ++ List.drop bytes1.length len_mem)) with ⟨ok2, p2, e2, s2⟩
      rw [hr2] at h2
      simp only at h2
      cases ok2 <;> simp [h1.1, h2.1]

theorem read_reply_sync_at_eof (backend : GVfsBackendSftp) (rs : GInputStream)
    (len_mem : List Byte) (hrs : backend.reply_stream = some rs)
    (heof : rs.error_at_end = none) :
    (read_reply_sync backend len_mem).1.isSome = true := by
  unfold read_reply_sync
  simp only [hrs]
  have h1 := read_all_eof rs 4 heof
  have k1 := read_all_keeps_fd rs 4
  rcases hr1 : g_input_stream_read_all rs 4 with ⟨ok1, bytes1, e1, s1⟩
  rw [hr1] at h1 k1
  simp only at h1 k1
  subst h1
  simp only
  have h2 := read_all_eof s1 (GUINT32_FROM_BE (bytes1 ++ List.drop bytes1.length len_mem))
    (by rw [k1.2]; exact heof)
  rcases hr2 : g_input_stream_read_all s1
    (GUINT32_FROM_BE (bytes1 ++ List.drop bytes1.length len_mem)) with ⟨ok2, p2, e2, s2⟩
  rw [hr2] at h2
  simp only at h2
  subst h2
  rfl

theorem do_mount_after_login (w : SftpWorld) (job : GVfsJobMount)
    (mount_spec : GMountSpec) (mount_source : GMountSource) (is_automount : Bool)
    (child : SshChild)
    (hs : spawn_ssh w.os (setup_ssh_commandline w.os.use_pty w.backend).1 = Except.ok child)
    (hr : (do_mount_login w mount_source child).ret_val = true) :
    do_mount w job mount_spec mount_source is_automount
      = (match read_reply_sync (backend_with_streams w child) w.os.len_mem with
        | (none, error, backend2) =>
          ({ w with
              spawned := some (setup_ssh_commandline w.os.use_pty w.backend).1,
              so := some (do_mount_send_init
                { g_socket_output_stream_new child.stdin_fd true with
                  broken := w.os.output_broken child.stdin_fd }).2,
              login_reply_stream := (do_mount_login w mount_source child).reply_stream,
              asked := (do_mount_login w mount_source child).asked,
              backend := backend2 },
            match error with
            | some error =>
              { job with parent := g_vfs_job_failed_from_error job.parent error }
            | none => job)
        | (some _, _, backend2) =>
          ({ w with
              spawned := some (setup_ssh_commandline w.os.use_pty w.backend).1,
              so := some (do_mount_send_init
                { g_socket_output_stream_new child.stdin_fd true with
                  broken := w.os.output_broken child.stdin_fd }).2,
              login_reply_stream := (do_mount_login w mount_source child).reply_stream,
              asked := (do_mount_login w mount_source child).asked,
              backend := { backend2 with mount_spec := some (published_mount_spec backend2) } },
            { job with parent := g_vfs_job_succeeded job.parent })) := by
  unfold do_mount_login at hr
  simp only [do_mount, hs, hr, Bool.not_true, Bool.false_eq_true, if_false]
  rfl

theorem published_mount_spec_congr (b1 b2 : GVfsBackendSftp)
    (hu : b1.user = b2.user) (hs : b1.user_specified = b2.user_specified)
    (hh : b1.host = b2.host) :
    published_mount_spec b1 = published_mount_spec b2 := by
  simp only [published_mount_spec, hu, hs, hh]

/-- Every successful `do_mount` went through a successful spawn and login, leaves the
command stream and the reply stream of the backend on the child's stdout descriptor, and
publishes the mount spec built from the backend's host and user. -/
theorem do_mount_succeeded (w : SftpWorld) (job : GVfsJobMount)
    (mount_spec : GMountSpec) (mount_source : GMountSource) (is_automount : Bool)
    (h : (do_mount w { job with parent := ⟨JobOutcome.pending⟩ } mount_spec mount_source
        is_automount).2.parent.outcome = JobOutcome.succeeded) :
    ∃ child,
      spawn_ssh w.os (setup_ssh_commandline w.os.use_pty w.backend).1 = Except.ok child ∧
      (do_mount_login w mount_source child).ret_val = true ∧
      (do_mount w { job with parent := ⟨JobOutcome.pending⟩ } mount_spec mount_source
          is_automount).1.backend.command_stream
        = some { fd := child.stdout_fd, written := [],
                 broken := w.os.output_broken child.stdout_fd } ∧
      (do_mount w { job with parent := ⟨JobOutcome.pending⟩ } mount_spec mount_source
          is_automount).1.backend.reply_stream.map (fun s => s.fd)
        = some child.stdout_fd ∧
      (do_mount w { job with parent := ⟨JobOutcome.pending⟩ } mount_spec mount_source
          is_automount).1.backend.mount_spec
        = some (published_mount_spec w.backend) ∧
      (do_mount w { job with parent := ⟨JobOutcome.pending⟩ } mount_spec mount_source
          is_automount).1.spawned
        = some (setup_ssh_commandline w.os.use_pty w.backend).1 := by
  cases hs : spawn_ssh w.os (setup_ssh_commandline w.os.use_pty w.backend).1 with
  | error e =>
    rw [do_mount_spawn_failure _ _ _ _ _ e hs] at h
    simp [g_vfs_job_failed_from_error, g_vfs_job_failed] at h
  | ok child =>
    cases hr : (do_mount_login w mount_source child).ret_val with
    | false =>
      exfalso
      have hr2 := hr
      unfold do_mount_login at hr2
      cases he : (do_mount_login w mount_source child).error with
      | none =>
        have he2 := he
        unfold do_mount_login at he2
        simp [do_mount, hs, hr2, he2] at h
      | some e =>
        have hf := (do_mount_login_failure w job mount_spec mount_source is_automount
          child e hs hr he).1
        rw [hf] at h
        simp at h
    | true =>
      refine ⟨child, rfl, hr, ?_⟩
      have hk := read_reply_sync_keeps (backend_with_streams w child) w.os.len_mem
      rw [do_mount_after_login w _ mount_spec mount_source is_automount child hs hr] at h ⊢
      rcases hrr : read_reply_sync (backend_with_streams w child) w.os.len_mem with
        ⟨_ | arr, err, b2⟩
      · rw [hrr] at h
        cases err <;> simp [g_vfs_job_failed_from_error, g_vfs_job_failed] at h
      · rw [hrr] at hk
        simp only at hk
        obtain ⟨hfd, hcs, hhost, huser, hspec, _⟩ := hk
        simp only
        refine ⟨?_, ?_, ?_, trivial⟩
        · rw [hcs]; rfl
        · rw [hfd]; rfl
        · rw [published_mount_spec_congr b2 w.backend huser hspec hhost]

/-- C15, evaluated where it fails: the child's stdout holds `00 00 00 05 02` and then
ends with end-of-file, one payload byte instead of the five declared.  The read of the
payload is short and counts as a success, `read_reply_sync` returns an array and no
error, and `do_mount` lets the job succeed and publishes the mount spec. -/
theorem do_mount_succeeds_on_early_eof :
    (read_reply_sync
        (backend_with_streams (world_after_try_mount early_eof_env) ⟨100, 3, 4, 5, 6⟩)
        [0, 0, 0, 0]).1
      = some { data := [2], len := 0 } ∧
    (read_reply_sync
        (backend_with_streams (world_after_try_mount early_eof_env) ⟨100, 3, 4, 5, 6⟩)
        [0, 0, 0, 0]).2.1
      = none ∧
    (do_mount (world_after_try_mount early_eof_env) sftp_mount_request
        sftp_mount_request.mount_spec ⟨0⟩ false).2.parent.outcome
      = JobOutcome.succeeded ∧
    (do_mount (world_after_try_mount early_eof_env) sftp_mount_request
        sftp_mount_request.mount_spec ⟨0⟩ false).1.backend.mount_spec
      = some ⟨[("type", "sftp"), ("user", "u"), ("host", "h")]⟩ := by
  refine ⟨by rfl, by rfl, by rfl, by rfl⟩

/-- C16, evaluated where it fails: a mount that succeeds with the child's stdin on
descriptor 4 and its stdout on descriptor 5.  The `INIT` request went to descriptor 4,
the reply stream of the backend reads from descriptor 5, and the command stream of the
backend writes to descriptor 5, the child's stdout, not to descriptor 4. -/
theorem do_mount_command_stream_on_stdout :
    (do_mount (world_after_try_mount openssh_pty_env) sftp_mount_request
        sftp_mount_request.mount_spec ⟨0⟩ false).2.parent.outcome
      = JobOutcome.succeeded ∧
    (do_mount (world_after_try_mount openssh_pty_env) sftp_mount_request
        sftp_mount_request.mount_spec ⟨0⟩ false).1.so
      = some { fd := 4, written := [0, 0, 0, 5, 1, 0, 0, 0, 3], broken := false } ∧
    (do_mount (world_after_try_mount openssh_pty_env) sftp_mount_request
        sftp_mount_request.mount_spec ⟨0⟩ false).1.backend.reply_stream.map (fun s => s.fd)
      = some 5 ∧
    (do_mount (world_after_try_mount openssh_pty_env) sftp_mount_request
        sftp_mount_request.mount_spec ⟨0⟩ false).1.backend.command_stream
      = some { fd := 5, written := [], broken := false } ∧
    (5 : Int) ≠ 4 := by
  refine ⟨by rfl, by rfl, by rfl, by rfl, by decide⟩

theorem try_mount_not_handled (w w1 : SftpWorld) (job job1 : GVfsJobMount)
    (mount_spec : GMountSpec) (mount_source : GMountSource) (is_automount : Bool)
    (h : try_mount w job mount_spec mount_source is_automount = (false, w1, job1)) :
    ∃ host, g_mount_spec_get mount_spec "host" = some host ∧ job1 = job ∧
      w1.os = w.os ∧ w1.backend.host = some host ∧
      w1.backend.user = some ((g_mount_spec_get mount_spec "user").getD w.os.user_name) ∧
      w1.backend.user_specified
        = ((g_mount_spec_get mount_spec "user").isSome || w.backend.user_specified) := by
  unfold try_mount at h
  simp only at h
  split at h
  · simp at h
  · split at h
    · simp at h
    · rename_i host hh
      refine ⟨host, hh, ?_⟩
      simp only [Prod.mk.injEq, true_and] at h
      obtain ⟨hw, hj⟩ := h
      subst hw
      subst hj
      cases hu : g_mount_spec_get mount_spec "user" <;> simp [hu]

theorem published_spec_with_user (b : GVfsBackendSftp) (u h : String)
    (hs : b.user_specified = true) (hu : b.user = some u) (hh : b.host = some h) :
    published_mount_spec b = ⟨[("type", "sftp"), ("user", u), ("host", h)]⟩ := by
  simp [published_mount_spec, hs, hu, hh, g_mount_spec_new, g_mount_spec_set]

theorem published_spec_without_user (b : GVfsBackendSftp) (h : String)
    (hs : b.user_specified = false) (hh : b.host = some h) :
    published_mount_spec b = ⟨[("type", "sftp"), ("host", h)]⟩ := by
  simp [published_mount_spec, hs, hh, g_mount_spec_new, g_mount_spec_set]

theorem setup_ssh_commandline_login_user (use_pty : Bool) (b : GVfsBackendSftp)
    (u h : String) (hu : b.user = some u) (hh : b.host = some h) :
    ∃ pre post, strv (setup_ssh_commandline use_pty b).1 = pre ++ ["-l", u] ++ post := by
  unfold setup_ssh_commandline
  rw [hu, hh]
  cases b.client_vendor <;> cases use_pty
  · exact ⟨[SSH_PROGRAM], ["-s", h, "sftp"], rfl⟩
  · exact ⟨[SSH_PROGRAM], ["-s", h, "sftp"], rfl⟩
  · exact ⟨[SSH_PROGRAM, "-oForwardX11 no", "-oForwardAgent no", "-oClearAllForwardings yes",
      "-oProtocol 2", "-oNoHostAuthenticationForLocalhost yes", "-oBatchMode yes"],
      ["-s", h, "sftp"], rfl⟩
  · exact ⟨[SSH_PROGRAM, "-oForwardX11 no", "-oForwardAgent no", "-oClearAllForwardings yes",
      "-oProtocol 2", "-oNoHostAuthenticationForLocalhost yes"], ["-s", h, "sftp"], rfl⟩
  · exact ⟨[SSH_PROGRAM, "-x"], ["-s", "sftp", h], rfl⟩
  · exact ⟨[SSH_PROGRAM, "-x"], ["-s", "sftp", h], rfl⟩

/-- C17. Whenever `try_mount` on a backend that has no user recorded as specified (as it
is after `g_vfs_backend_sftp_init`), followed by `do_mount`, succeeds for a request mount
spec `m`: the mount spec published for the backend has type `sftp`, the host of `m`
(which `m` has), the user of `m` if `m` has one and no user otherwise, and no other key;
the child was spawned with the argument vector that `setup_ssh_commandline` builds, in
which `-l` is followed by the user of `m`, or by the OS user name when `m` has none. -/
theorem mount_publishes_request_spec (w w1 : SftpWorld) (job job1 : GVfsJobMount)
    (m : GMountSpec) (mount_source : GMountSource) (is_automount : Bool)
    (hfresh : w.backend.user_specified = false)
    (ht : try_mount w { job with parent := ⟨JobOutcome.pending⟩ } m mount_source
        is_automount = (false, w1, job1))
    (hd : (do_mount w1 job1 m mount_source is_automount).2.parent.outcome
        = JobOutcome.succeeded) :
    ∃ spec argv,
      (do_mount w1 job1 m mount_source is_automount).1.backend.mount_spec = some spec ∧
      g_mount_spec_get spec "type" = some "sftp" ∧
      (g_mount_spec_get m "host").isSome = true ∧
      g_mount_spec_get spec "host" = g_mount_spec_get m "host" ∧
      g_mount_spec_get spec "user" = g_mount_spec_get m "user" ∧
      (∀ key, key ≠ "type" → key ≠ "host" → key ≠ "user" →
        g_mount_spec_get spec key = none) ∧
      (do_mount w1 job1 m mount_source is_automount).1.spawned = some argv ∧
      ∃ pre post,
        strv argv
          = pre ++ ["-l", (g_mount_spec_get m "user").getD w.os.user_name] ++ post := by
  obtain ⟨host, hhost, hjob, hos, hbh, hbu, hbs⟩ :=
    try_mount_not_handled w w1 _ job1 m mount_source is_automount ht
  subst hjob
  obtain ⟨child, _, _, _, _, hspec, hspawn⟩ :=
    do_mount_succeeded w1 job m mount_source is_automount hd
  rw [hfresh, Bool.or_false] at hbs
  refine ⟨published_mount_spec w1.backend,
    (setup_ssh_commandline w1.os.use_pty w1.backend).1, hspec, ?_, ?_, ?_, ?_, ?_, hspawn,
    setup_ssh_commandline_login_user w1.os.use_pty w1.backend _ host hbu hbh⟩
  · cases hu : g_mount_spec_get m "user" with
    | none =>
      rw [hu] at hbs
      rw [published_spec_without_user w1.backend host hbs hbh]
      rfl
    | some u =>
      rw [hu] at hbs hbu
      rw [published_spec_with_user w1.backend u host hbs hbu hbh]
      rfl
  · rw [hhost]; rfl
  · cases hu : g_mount_spec_get m "user" with
    | none =>
      rw [hu] at hbs
      rw [published_spec_without_user w1.backend host hbs hbh, hhost]
      rfl
    | some u =>
      rw [hu] at hbs hbu
      rw [published_spec_with_user w1.backend u host hbs hbu hbh, hhost]
      rfl
  · cases hu : g_mount_spec_get m "user" with
    | none =>
      rw [hu] at hbs
      rw [published_spec_without_user w1.backend host hbs hbh]
      rfl
    | some u =>
      rw [hu] at hbs hbu
      rw [published_spec_with_user w1.backend u host hbs hbu hbh]
      rfl
  · intro key h1 h2 h3
    have e1 : (key == "type") = false := by simpa using h1
    have e2 : (key == "host") = false := by simpa using h2
    have e3 : (key == "user") = false := by simpa using h3
    cases hu : g_mount_spec_get m "user" with
    | none =>
      rw [hu] at hbs
      rw [published_spec_without_user w1.backend host hbs hbh]
      simp [g_mount_spec_get, List.lookup, e1, e2]
    | some u =>
      rw [hu] at hbs hbu
      rw [published_spec_with_user w1.backend u host hbs hbu hbh]
      simp [g_mount_spec_get, List.lookup, e1, e2, e3]

/-- Witness for C17: with an OpenSSH client and a pty, a password prompt answered with
`secret` and the `VERSION` reply on the child's stdout, the request
`{type: sftp, host: h, user: u}` succeeds and is published with the same three
bindings. -/
theorem mount_publishes_request_spec_witness :
    ∃ spec argv,
      (do_mount (world_after_try_mount openssh_pty_env) sftp_mount_request
          sftp_mount_request.mount_spec ⟨0⟩ false).1.backend.mount_spec = some spec ∧
      g_mount_spec_get spec "type" = some "sftp" ∧
      (g_mount_spec_get sftp_mount_request.mount_spec "host").isSome = true ∧
      g_mount_spec_get spec "host" = g_mount_spec_get sftp_mount_request.mount_spec "host" ∧
      g_mount_spec_get spec "user" = g_mount_spec_get sftp_mount_request.mount_spec "user" ∧
      (∀ key, key ≠ "type" → key ≠ "host" → key ≠ "user" →
        g_mount_spec_get spec key = none) ∧
      (do_mount (world_after_try_mount openssh_pty_env) sftp_mount_request
          sftp_mount_request.mount_spec ⟨0⟩ false).1.spawned = some argv ∧
      ∃ pre post,
        strv argv
          = pre ++ ["-l", (g_mount_spec_get sftp_mount_request.mount_spec "user").getD
              (new_sftp_world openssh_pty_env).os.user_name] ++ post :=
  mount_publishes_request_spec (new_sftp_world openssh_pty_env)
    (world_after_try_mount openssh_pty_env) sftp_mount_request sftp_mount_request
    sftp_mount_request.mount_spec ⟨0⟩ false rfl rfl rfl

/-! ## Theorems: local file input stream -/

theorem local_read_loop_cancelled (from_errno : Int → GIOErrorEnum)
    (strerror : Int → String) (cancelled : Nat → Bool) (res : Int) (attempt : Nat)
    (reads : List OsReadResult) (hc : cancelled attempt = true) :
    local_read_loop from_errno strerror cancelled res attempt reads
      = some (res, some ⟨GIOErrorEnum.G_IO_ERROR_CANCELLED, "Operation was cancelled"⟩) := by
  cases reads with
  | nil => rw [local_read_loop]; simp [hc]
  | cons r rest => cases r <;> (rw [local_read_loop]; simp [hc])

theorem local_read_loop_bytes (from_errno : Int → GIOErrorEnum)
    (strerror : Int → String) (cancelled : Nat → Bool) (res : Int) (attempt : Nat)
    (count : Nat) (rest : List OsReadResult) (hc : cancelled attempt = false) :
    local_read_loop from_errno strerror cancelled res attempt
        (OsReadResult.bytes count :: rest)
      = some ((count : Int), none) := by
  rw [local_read_loop]; simp [hc]

theorem local_read_loop_eintr (from_errno : Int → GIOErrorEnum)
    (strerror : Int → String) (cancelled : Nat → Bool) (res : Int) (attempt : Nat)
    (rest : List OsReadResult) (hc : cancelled attempt = false) :
    local_read_loop from_errno strerror cancelled res attempt
        (OsReadResult.failed EINTR :: rest)
      = local_read_loop from_errno strerror cancelled (-1) (attempt + 1) rest := by
  rw [local_read_loop]; simp [hc]

theorem local_read_loop_failed (from_errno : Int → GIOErrorEnum)
    (strerror : Int → String) (cancelled : Nat → Bool) (res : Int) (attempt : Nat)
    (errno : Int) (rest : List OsReadResult) (hc : cancelled attempt = false)
    (he : errno ≠ EINTR) :
    local_read_loop from_errno strerror cancelled res attempt
        (OsReadResult.failed errno :: rest)
      = some (-1,
          some ⟨from_errno errno, "Error reading from file: " ++ strerror errno⟩) := by
  rw [local_read_loop]; simp [hc, he]

theorem local_read_loop_retries (from_errno : Int → GIOErrorEnum)
    (strerror : Int → String) (cancelled : Nat → Bool) :
    ∀ (k : Nat) (res : Int) (attempt : Nat) (rest : List OsReadResult),
      (∀ i, i < k → cancelled (attempt + i) = false) →
      local_read_loop from_errno strerror cancelled res attempt
          (List.replicate k (OsReadResult.failed EINTR) ++ rest)
        = local_read_loop from_errno strerror cancelled (if k = 0 then res else -1)
            (attempt + k) rest := by
  intro k
  induction k with
  | zero => intro res attempt rest _; simp
  | succ n ih =>
    intro res attempt rest hc
    have h0 : cancelled attempt = false := by simpa using hc 0 (Nat.succ_pos n)
    rw [List.replicate_succ, List.cons_append,
      local_read_loop_eintr from_errno strerror cancelled res attempt _ h0,
      ih (-1) (attempt + 1) rest]
    · have e : attempt + 1 + n = attempt + (n + 1) := by omega
      rw [e]
      simp
    · intro i hi
      have := hc (i + 1) (by omega)
      have e : attempt + 1 + i = attempt + (i + 1) := by omega
      rw [e]; exact this

theorem local_read_loop_minus_one (from_errno : Int → GIOErrorEnum)
    (strerror : Int → String) (cancelled : Nat → Bool) :
    ∀ (reads : List OsReadResult) (attempt : Nat) (r : Int × Option GError),
      local_read_loop from_errno strerror cancelled (-1) attempt reads = some r →
      (r.1 = -1 ↔ r.2.isSome = true) := by
  intro reads
  induction reads with
  | nil =>
    intro attempt r h
    cases hc : cancelled attempt with
    | true =>
      rw [local_read_loop_cancelled from_errno strerror cancelled _ _ _ hc] at h
      cases h; simp
    | false => rw [local_read_loop] at h; simp [hc] at h
  | cons x rest ih =>
    intro attempt r h
    cases hc : cancelled attempt with
    | true =>
      rw [local_read_loop_cancelled from_errno strerror cancelled _ _ _ hc] at h
      cases h; simp
    | false =>
      cases x with
      | bytes count =>
        rw [local_read_loop_bytes from_errno strerror cancelled _ _ _ _ hc] at h
        cases h
        simp only [Option.isSome_none, Bool.false_eq_true, iff_false]
        omega
      | failed errno =>
        by_cases he : errno = EINTR
        · subst he
          rw [local_read_loop_eintr from_errno strerror cancelled _ _ _ hc] at h
          exact ih (attempt + 1) r h
        · rw [local_read_loop_failed from_errno strerror cancelled _ _ _ _ hc he] at h
          cases h; simp

/-- C20. `g_local_file_input_stream_read`, for every sequence of OS read results that
starts with `k` failures with `EINTR`: the token is checked before every attempt, and if
it is first tripped before attempt `j` (with `j ≤ k`), the result is -1 with the error
`CANCELLED`; if it is not tripped before any of the first `k + 1` attempts, the `k`
failures are retried and the next result decides: a byte count is returned with no
error set, a failure other than `EINTR` gives -1 with the error mapped from `errno` and
the message "Error reading from file: " followed by the text of the error.  Whenever the
function returns, its result is -1 if and only if an error was set. -/
theorem local_read_retries_and_reports (from_errno : Int → GIOErrorEnum)
    (strerror : Int → String) (cancelled : Nat → Bool) (k : Nat)
    (rest : List OsReadResult) :
    (∀ j, j ≤ k → (∀ i, i < j → cancelled i = false) → cancelled j = true →
      g_local_file_input_stream_read from_errno strerror cancelled
          (List.replicate k (OsReadResult.failed EINTR) ++ rest)
        = some (-1,
            some ⟨GIOErrorEnum.G_IO_ERROR_CANCELLED, "Operation was cancelled"⟩)) ∧
    ((∀ i, i ≤ k → cancelled i = false) →
      (∀ count,
        g_local_file_input_stream_read from_errno strerror cancelled
            (List.replicate k (OsReadResult.failed EINTR)
              ++ OsReadResult.bytes count :: rest)
          = some ((count : Int), none)) ∧
      (∀ errno, errno ≠ EINTR →
        g_local_file_input_stream_read from_errno strerror cancelled
            (List.replicate k (OsReadResult.failed EINTR)
              ++ OsReadResult.failed errno :: rest)
          = some (-1,
              some ⟨from_errno errno, "Error reading from file: " ++ strerror errno⟩))) ∧
    (∀ reads r,
      g_local_file_input_stream_read from_errno strerror cancelled reads = some r →
      (r.1 = -1 ↔ r.2.isSome = true)) := by
  refine ⟨?_, ?_, ?_⟩
  · intro j hj hbefore hat
    obtain ⟨d, rfl⟩ := Nat.exists_eq_add_of_le hj
    have habs : List.replicate (j + d) (OsReadResult.failed EINTR) ++ rest
        = List.replicate j (OsReadResult.failed EINTR)
          ++ (List.replicate d (OsReadResult.failed EINTR) ++ rest) := by
      rw [← List.append_assoc, List.append_replicate_replicate]
    unfold g_local_file_input_stream_read
    rw [habs, local_read_loop_retries from_errno strerror cancelled j (-1) 0 _
      (by intro i hi; simpa using hbefore i hi)]
    have hres : (if j = 0 then (-1 : Int) else -1) = -1 := by split <;> rfl
    rw [hres, local_read_loop_cancelled from_errno strerror cancelled _ _ _
      (by simpa using hat)]
  · intro hc
    have hres : (if k = 0 then (-1 : Int) else -1) = -1 := by split <;> rfl
    have hk : cancelled (0 + k) = false := by simpa using hc k (Nat.le_refl k)
    constructor
    · intro count
      unfold g_local_file_input_stream_read
      rw [local_read_loop_retries from_errno strerror cancelled k (-1) 0 _
        (by intro i hi; simpa using hc i (Nat.le_of_lt hi)), hres,
        local_read_loop_bytes from_errno strerror cancelled _ _ _ _ hk]
    · intro errno he
      unfold g_local_file_input_stream_read
      rw [local_read_loop_retries from_errno strerror cancelled k (-1) 0 _
        (by intro i hi; simpa using hc i (Nat.le_of_lt hi)), hres,
        local_read_loop_failed from_errno strerror cancelled _ _ _ _ hk he]
  · intro reads r h
    exact local_read_loop_minus_one from_errno strerror cancelled reads 0 r h

/-- Witness for C20: two failures with `EINTR`, then 7 bytes, with the token never
tripped: the result is 7 and no error is set. -/
theorem local_read_retries_and_reports_witness :
    g_local_file_input_stream_read (fun _ => GIOErrorEnum.G_IO_ERROR_FAILED)
        (fun _ => "Bad file descriptor") (fun _ => false)
        [OsReadResult.failed EINTR, OsReadResult.failed EINTR, OsReadResult.bytes 7]
      = some (7, none) :=
  ((local_read_retries_and_reports (fun _ => GIOErrorEnum.G_IO_ERROR_FAILED)
    (fun _ => "Bad file descriptor") (fun _ => false) 2 []).2.1 (fun _ _ => rfl)).1 7

/-! ## Theorems: enumerator object paths -/

theorem wrap_gint_in_range (x : Int) (h1 : -2 ^ 31 ≤ x) (h2 : x < 2 ^ 31) :
    wrap_gint x = x := by
  unfold wrap_gint
  omega

theorem dbus_filter_keeps_id {σ ι : Type} (gfi : List σ → Option ι × List σ) (fuel : Nat)
    (d d1 : GDaemonFileEnumerator ι) (m : DBusMessage σ)
    (h : g_daemon_file_enumerator_dbus_filter gfi fuel d m = some d1) : d1.id = d.id := by
  unfold g_daemon_file_enumerator_dbus_filter at h
  split_ifs at h
  · cases h; rfl
  · cases hc : dbus_filter_collect gfi fuel m with
    | none => simp [hc] at h
    | some l =>
      simp only [hc, Option.some.injEq] at h
      rw [← h]
  · cases h; rfl

theorem next_file_keeps_id {σ ι : Type} (gfi : List σ → Option ι × List σ) (fuel : Nat) :
    ∀ (bus : List (DBusMessage σ)) (d d1 : GDaemonFileEnumerator ι) (r : Option ι)
      (bus1 : List (DBusMessage σ)),
      g_daemon_file_enumerator_next_file gfi fuel d bus = some (r, d1, bus1) →
      d1.id = d.id := by
  intro bus
  induction bus with
  | nil =>
    intro d d1 r bus1 h
    rw [g_daemon_file_enumerator_next_file] at h
    cases hi : d.infos with
    | nil =>
      simp only [hi] at h
      split_ifs at h <;> (cases h; rfl)
    | cons x xs =>
      simp only [hi] at h
      cases h; rfl
  | cons m bus ih =>
    intro d d1 r bus1 h
    rw [g_daemon_file_enumerator_next_file] at h
    cases hi : d.infos with
    | cons x xs =>
      simp only [hi] at h
      cases h; rfl
    | nil =>
      simp only [hi] at h
      split_ifs at h
      · cases h; rfl
      · cases hf : g_daemon_file_enumerator_dbus_filter gfi fuel d m with
        | none => simp [hf] at h
        | some d2 =>
          simp only [hf] at h
          rw [ih d2 d1 r bus1 h, dbus_filter_keeps_id gfi fuel d d2 m hf]

theorem construct_enumerators_ids (ι : Type) :
    ∀ (n : Nat) (c : Int), -2 ^ 31 ≤ c → c + n ≤ 2 ^ 31 - 1 →
      (construct_enumerators ι n c).1.map (fun d => d.id)
          = (List.range n).map (fun k : Nat => c + (k : Int)) ∧
      (construct_enumerators ι n c).2 = c + n := by
  intro n
  induction n with
  | zero => intro c _ _; simp [construct_enumerators]
  | succ n ih =>
    intro c h1 h2
    have hw : wrap_gint (c + 1) = c + 1 :=
      wrap_gint_in_range (c + 1) (by omega) (by push_cast at h2; omega)
    obtain ⟨hids, hcnt⟩ := ih (c + 1) (by omega) (by push_cast at h2 ⊢; omega)
    simp only [construct_enumerators, g_daemon_file_enumerator_init,
      g_atomic_int_exchange_and_add, hw, List.map_cons, hids, hcnt]
    constructor
    · rw [List.range_succ_eq_map, List.map_cons, List.map_map]
      simp only [Nat.cast_zero, add_zero, List.cons.injEq, true_and]
      apply List.map_congr_left
      intro k _
      simp only [Function.comp, Nat.cast_succ]
      omega
    · push_cast; omega

/-- C21. Enumerator object paths. With `path_counter` at its initial value the first
enumerator gets id 1; from any content `c` of the counter below the largest `gint` the
enumerator gets id `c` and the next one id `c + 1`; hence `n` enumerators constructed one
after the other from the start have the ids `1, ..., n`, pairwise distinct, as long as
the counter stays in the `gint` range.  The object path is
"/org/gtk/vfs/client/enumerator/" followed by the id in decimal (for the first one
"/org/gtk/vfs/client/enumerator/1"); `init` registers this path, neither the filter nor
`next_file` changes the id, and so `finalize` unregisters the path that `init`
registered. -/
theorem enumerator_object_paths (ι : Type) :
    (g_daemon_file_enumerator_init ι path_counter).1.id = 1 ∧
    (∀ c : Int, -2 ^ 31 ≤ c → c < 2 ^ 31 - 1 →
      (g_daemon_file_enumerator_init ι c).1.id = c ∧
      (g_daemon_file_enumerator_init ι (g_daemon_file_enumerator_init ι c).2.1).1.id
        = c + 1) ∧
    (∀ n : Nat, (n : Int) + 1 ≤ 2 ^ 31 - 1 →
      (construct_enumerators ι n path_counter).1.map (fun d => d.id)
          = (List.range n).map (fun k : Nat => (k : Int) + 1) ∧
      ((construct_enumerators ι n path_counter).1.map (fun d => d.id)).Nodup) ∧
    (∀ d : GDaemonFileEnumerator ι,
      g_daemon_file_enumerator_get_object_path d
        = "/org/gtk/vfs/client/enumerator/" ++ toString d.id) ∧
    g_daemon_file_enumerator_get_object_path (g_daemon_file_enumerator_init ι path_counter).1
      = "/org/gtk/vfs/client/enumerator/1" ∧
    (∀ c : Int,
      (g_daemon_file_enumerator_init ι c).2.2
          = VfsFilterCall.register
              (g_daemon_file_enumerator_get_object_path
                (g_daemon_file_enumerator_init ι c).1) ∧
      g_daemon_file_enumerator_finalize (g_daemon_file_enumerator_init ι c).1
          = VfsFilterCall.unregister
              (g_daemon_file_enumerator_get_object_path
                (g_daemon_file_enumerator_init ι c).1)) ∧
    (∀ (σ : Type) (gfi : List σ → Option ι × List σ) (fuel : Nat)
        (d d1 : GDaemonFileEnumerator ι) (m : DBusMessage σ),
      g_daemon_file_enumerator_dbus_filter gfi fuel d m = some d1 →
      g_daemon_file_enumerator_finalize d1
        = VfsFilterCall.unregister (g_daemon_file_enumerator_get_object_path d)) ∧
    (∀ (σ : Type) (gfi : List σ → Option ι × List σ) (fuel : Nat)
        (d d1 : GDaemonFileEnumerator ι) (bus bus1 : List (DBusMessage σ)) (r : Option ι),
      g_daemon_file_enumerator_next_file gfi fuel d bus = some (r, d1, bus1) →
      g_daemon_file_enumerator_finalize d1
        = VfsFilterCall.unregister (g_daemon_file_enumerator_get_object_path d)) := by
  refine ⟨rfl, ?_, ?_, fun _ => rfl, rfl, fun _ => ⟨rfl, rfl⟩, ?_, ?_⟩
  · intro c h1 h2
    have hw : wrap_gint (c + 1) = c + 1 := wrap_gint_in_range (c + 1) (by omega) (by omega)
    exact ⟨rfl, by simp [g_daemon_file_enumerator_init, g_atomic_int_exchange_and_add, hw]⟩
  · intro n hn
    have hids := (construct_enumerators_ids ι n path_counter (by decide)
      (by unfold path_counter; omega)).1
    have hform : (List.range n).map (fun k : Nat => path_counter + (k : Int))
        = (List.range n).map (fun k : Nat => (k : Int) + 1) := by
      apply List.map_congr_left
      intro k _
      unfold path_counter
      omega
    rw [hids, hform]
    refine ⟨rfl, ?_⟩
    apply List.Nodup.map _ (List.nodup_range n)
    intro a b hab
    simp only at hab
    omega
  · intro σ gfi fuel d d1 m h
    simp only [g_daemon_file_enumerator_finalize, g_daemon_file_enumerator_get_object_path,
      dbus_filter_keeps_id gfi fuel d d1 m h]
  · intro σ gfi fuel d d1 bus bus1 r h
    simp only [g_daemon_file_enumerator_finalize, g_daemon_file_enumerator_get_object_path,
      next_file_keeps_id gfi fuel bus d d1 r bus1 h]

/-- Witness for C21: three enumerators constructed from the start have the ids 1, 2,
3. -/
theorem enumerator_object_paths_witness :
    (construct_enumerators Unit 3 path_counter).1.map (fun d => d.id)
      = (List.range 3).map (fun k : Nat => (k : Int) + 1) :=
  ((enumerator_object_paths Unit).2.2.1 3 (by decide)).1

/-- C22. With the pending list empty and `done` unset, when read-dispatch reports that
the connection is gone, `g_daemon_file_enumerator_next_file` returns `NULL`, leaves the
caller's error as it was and leaves `done` unset; this also holds after it has dispatched
messages that are neither `DONE` nor `GOT_INFO`.  End-of-stream (empty list, `done` set)
returns the same `NULL`, with the error as it was.  So a `NULL` result does not tell that
`DONE` was received. -/
theorem next_file_null_without_done {σ ι : Type} (gfi : List σ → Option ι × List σ)
    (fuel : Nat) (id : Int) (error : Option GError) (bus : List (DBusMessage σ)) :
    next_file_call gfi fuel { id := id, infos := [], done := false }
        ([] : List (DBusMessage σ)) error
      = some (none, error, { id := id, infos := [], done := false }, []) ∧
    next_file_call gfi fuel { id := id, infos := [], done := true } bus error
      = some (none, error, { id := id, infos := [], done := true }, bus) ∧
    ((∀ m ∈ bus, m.member ≠ G_VFS_DBUS_ENUMERATOR_DONE ∧
          m.member ≠ G_VFS_DBUS_ENUMERATOR_GOT_INFO) →
      next_file_call gfi fuel { id := id, infos := [], done := false } bus error
        = some (none, error, { id := id, infos := [], done := false }, [])) ∧
    ¬ (∀ (d d1 : GDaemonFileEnumerator ι) (b b1 : List (DBusMessage σ)),
        g_daemon_file_enumerator_next_file gfi fuel d b = some (none, d1, b1) →
        d1.done = true) := by
  refine ⟨rfl, ?_, ?_, ?_⟩
  · cases bus <;> rfl
  · intro hb
    have key : ∀ (l : List (DBusMessage σ)),
        (∀ m ∈ l, m.member ≠ G_VFS_DBUS_ENUMERATOR_DONE ∧
          m.member ≠ G_VFS_DBUS_ENUMERATOR_GOT_INFO) →
        g_daemon_file_enumerator_next_file gfi fuel
            ({ id := id, infos := [], done := false } : GDaemonFileEnumerator ι) l
          = some (none, { id := id, infos := [], done := false }, []) := by
      intro l
      induction l with
      | nil => intro _; rfl
      | cons m l ih =>
        intro hl
        have hm := hl m (List.mem_cons_self _ _)
        have hf : g_daemon_file_enumerator_dbus_filter gfi fuel
            ({ id := id, infos := [], done := false } : GDaemonFileEnumerator ι) m
            = some { id := id, infos := [], done := false } := by
          simp [g_daemon_file_enumerator_dbus_filter, hm.1, hm.2]
        rw [g_daemon_file_enumerator_next_file]
        simp only [hf]
        exact ih (fun m1 h1 => hl m1 (List.mem_cons_of_mem _ h1))
    simp [next_file_call, key bus hb]
  · intro hall
    have h := hall { id := id, infos := [], done := false }
      { id := id, infos := [], done := false } [] [] rfl
    simp at h

/-- Witness for C22: after a message with another member the connection is gone; the
result is `NULL`, no error, `done` unset. -/
theorem next_file_null_without_done_witness :
    next_file_call (dbus_get_file_info (fun s : String => some s)) 2
        { id := 1, infos := [], done := false }
        [{ member := "Other", args := [] }] none
      = some (none, none, { id := 1, infos := [], done := false }, []) :=
  (next_file_null_without_done (dbus_get_file_info (fun s : String => some s)) 2 1 none
    [{ member := "Other", args := [] }]).2.2.1 (by decide)

/-! ## Theorems: the argument array of the SFTP backend -/

/-- C23. For every vendor value and both build configurations, `setup_ssh_commandline`
makes one write per item, in order, into the slots 0, 1, ... of its array of 20 slots:
`last_arg` ends as the number of items, which is at most 13 (exactly 13 for the openssh
flavor built without pty support), so every write index is below 20; the array holds the
items in its first slots and `NULL` in all later ones.  The last item written is the
terminating `NULL`, and when user and host are not `NULL` no item before it is `NULL`,
so the returned vector has `last_arg - 1` elements. -/
theorem setup_ssh_commandline_slots (use_pty : Bool) (op_backend : GVfsBackendSftp) :
    (setup_ssh_commandline use_pty op_backend).2
      = (ssh_commandline_items use_pty op_backend).length ∧
    (setup_ssh_commandline use_pty op_backend).2 ≤ 13 ∧
    (∀ i, i < (setup_ssh_commandline use_pty op_backend).2 → i < 20) ∧
    (setup_ssh_commandline use_pty op_backend).1.length = 20 ∧
    (setup_ssh_commandline use_pty op_backend).1
      = ssh_commandline_items use_pty op_backend
        ++ List.replicate (20 - (ssh_commandline_items use_pty op_backend).length) none ∧
    (setup_ssh_commandline false
        { op_backend with client_vendor := SFTPClientVendor.SFTP_VENDOR_OPENSSH }).2 = 13 ∧
    (ssh_commandline_items use_pty op_backend).getLast? = some none ∧
    (op_backend.user ≠ none → op_backend.host ≠ none →
      ((ssh_commandline_items use_pty op_backend).dropLast.all Option.isSome = true) ∧
      (strv (setup_ssh_commandline use_pty op_backend).1).length + 1
        = (setup_ssh_commandline use_pty op_backend).2) := by
  obtain ⟨vendor, host, us, user, cs, rs, ms⟩ := op_backend
  cases vendor <;> cases use_pty <;>
    (refine ⟨rfl, Nat.le_of_ble_eq_true rfl, ?_, rfl, rfl, rfl, rfl, ?_⟩
     · intro i hi
       exact Nat.lt_of_lt_of_le hi (Nat.le_of_ble_eq_true rfl)
     · intro hu hh
       cases user with
       | none => exact absurd rfl hu
       | some u =>
         cases host with
         | none => exact absurd rfl hh
         | some h => exact ⟨rfl, rfl⟩)

/-- Witness for C23: for the openssh flavor built without pty support, user `u` and host
`h`, the vector has 12 elements and 13 slots are written. -/
theorem setup_ssh_commandline_slots_witness :
    (strv (setup_ssh_commandline false
        { g_vfs_backend_sftp_init with
          client_vendor := SFTPClientVendor.SFTP_VENDOR_OPENSSH,
          user := some "u", host := some "h" }).1).length + 1
      = (setup_ssh_commandline false
          { g_vfs_backend_sftp_init with
            client_vendor := SFTPClientVendor.SFTP_VENDOR_OPENSSH,
            user := some "u", host := some "h" }).2 :=
  ((setup_ssh_commandline_slots false
    { g_vfs_backend_sftp_init with
      client_vendor := SFTPClientVendor.SFTP_VENDOR_OPENSSH,
      user := some "u", host := some "h" }).2.2.2.2.2.2.2 (by decide) (by decide)).2

end GVfs
